import Mathlib

/-!
# MelodyMaker.ai — verification of the generation-lifecycle core

A shallow embedding of the repository's generation lifecycle:

* `src/app/api/generate-music/route.ts` — title/prompt synthesis, aggregate
  audio-feature computation, the submission `POST` handler's writes, and the
  status-read `GET` handler;
* `src/app/api/webhooks/replicate/route.ts` — HMAC signature verification,
  artifact relocation into storage, and the webhook `POST` handler.

Modelling conventions:

* JavaScript numbers are modelled as exact rationals (`Rat`); `Math.round`
  is JavaScript's round-half-toward-positive-infinity.
* Machine-word arithmetic inside SHA-256 is `Nat` masked to 32 bits.
* `JSON.parse` on the raw webhook body is modelled as an oracle: a request
  carries the raw body string together with the parse result
  (`Option JVal`), `none` standing for a parse failure.
* Database and storage are explicit state (`WorldState`); network fetches
  and storage-backend failures are oracles passed to the handler; real time
  (`Date.now()`) is a `Nat` parameter.
-/

namespace MelodyMaker

/-- JavaScript's `Math.round`: round half toward positive infinity
(`Rat.floor` is the executable floor). -/
def jsRound (q : Rat) : Int := (q + 1/2).floor

/-! ## Reference-track summaries (`SelectedSong` in `generate-music/route.ts`) -/

/-- Audio-feature vector of a reference track (`SelectedSong.audio_features`). -/
structure AudioFeatures where
  danceability : Rat := 0
  energy : Rat := 0
  valence : Rat := 0
  tempo : Rat := 0
  key : Rat := 0
  mode : Rat := 0
  time_signature : Rat := 0
  acousticness : Rat := 0
  instrumentalness : Rat := 0
  speechiness : Rat := 0
deriving DecidableEq

/-- A user-selected reference track (`SelectedSong`). -/
structure SelectedSong where
  id : String := ""
  name : String := ""
  artist : String := ""
  album : String := ""
  genres : Option (List String) := none
  audio_features : Option AudioFeatures := none
deriving DecidableEq

/-- Source: `song.audio_features?.energy || 0.5`: optional chaining produces
`undefined` when the vector is absent, and `||` replaces any falsy value
(`undefined` or `0`) with the default `0.5`. -/
def energyOrDefault (s : SelectedSong) : Rat :=
  match s.audio_features with
  | some f => if f.energy = 0 then 1/2 else f.energy
  | none => 1/2

/-- Source: `song.audio_features?.valence || 0.5` (falsy values default to `0.5`). -/
def valenceOrDefault (s : SelectedSong) : Rat :=
  match s.audio_features with
  | some f => if f.valence = 0 then 1/2 else f.valence
  | none => 1/2

/-- Source: `song.audio_features?.tempo || 120` (falsy values default to `120`). -/
def tempoOrDefault (s : SelectedSong) : Rat :=
  match s.audio_features with
  | some f => if f.tempo = 0 then 120 else f.tempo
  | none => 120

/-- Source: `selectedSongs.reduce((sum, song) => sum + (… || d), 0)` — the fold the
route uses before dividing by the list length. -/
def sumBy (f : SelectedSong → Rat) (songs : List SelectedSong) : Rat :=
  songs.foldl (fun sum s => sum + f s) 0

/-- Aggregate tempo stored on the record (`generate-music/route.ts:435-440`):
`Math.round` of the mean of the falsy-defaulted tempos, or `120` when no
reference track was supplied. -/
def aggTempo (songs : List SelectedSong) : Int :=
  if songs.length > 0 then
    jsRound (sumBy tempoOrDefault songs / songs.length)
  else 120

/-- Mean energy before rounding (`generate-music/route.ts:441-444`). -/
def avgEnergyOf (songs : List SelectedSong) : Rat :=
  if songs.length > 0 then sumBy energyOrDefault songs / songs.length else 1/2

/-- Mean valence before rounding (`generate-music/route.ts:445-448`). -/
def avgValenceOf (songs : List SelectedSong) : Rat :=
  if songs.length > 0 then sumBy valenceOrDefault songs / songs.length else 1/2

/-- Aggregate energy stored on the record: `Math.round(avgEnergy * 100) / 100`
(`generate-music/route.ts:463`). -/
def aggEnergy (songs : List SelectedSong) : Rat :=
  jsRound (avgEnergyOf songs * 100) / 100

/-- Aggregate valence stored on the record: `Math.round(avgValence * 100) / 100`
(`generate-music/route.ts:464`). -/
def aggValence (songs : List SelectedSong) : Rat :=
  jsRound (avgValenceOf songs * 100) / 100

/-! ## SHA-256 and HMAC-SHA256

The webhook route calls `createHmac("sha256", secret).update(body, "utf8")`
from `node:crypto`.  The algorithm is embedded concretely (FIPS 180-4 /
RFC 2104) over `Nat`, words masked to 32 bits, bytes as `Nat < 256`. -/

/-- Mask to a 32-bit word. -/
def w32 (n : Nat) : Nat := n % 4294967296

/-- 32-bit right rotation. -/
def rotr32 (n x : Nat) : Nat := w32 ((x >>> n) ||| (x <<< (32 - n)))

/-- Bitwise complement of a 32-bit word. -/
def not32 (x : Nat) : Nat := 4294967295 ^^^ x

/-- The 64 SHA-256 round constants. -/
def sha256K : List Nat :=
  [1116352408, 1899447441, 3049323471, 3921009573, 961987163,
   1508970993, 2453635748, 2870763221, 3624381080, 310598401,
   607225278, 1426881987, 1925078388, 2162078206, 2614888103,
   3248222580, 3835390401, 4022224774, 264347078, 604807628,
   770255983, 1249150122, 1555081692, 1996064986, 2554220882,
   2821834349, 2952996808, 3210313671, 3336571891, 3584528711,
   113926993, 338241895, 666307205, 773529912, 1294757372,
   1396182291, 1695183700, 1986661051, 2177026350, 2456956037,
   2730485921, 2820302411, 3259730800, 3345764771, 3516065817,
   3600352804, 4094571909, 275423344, 430227734, 506948616,
   659060556, 883997877, 958139571, 1322822218, 1537002063,
   1747873779, 1955562222, 2024104815, 2227730452, 2361852424,
   2428436474, 2756734187, 3204031479, 3329325298]

/-- Initial SHA-256 hash state. -/
def sha256H0 : List Nat :=
  [1779033703, 3144134277, 1013904242, 2773480762,
   1359893119, 2600822924, 528734635, 1541459225]

/-- Extend a 16-word block to the 64-word message schedule. -/
def sha256Schedule (block : List Nat) : List Nat :=
  (List.range 48).foldl
    (fun ws _ =>
      let i := ws.length
      let w15 := ws.getD (i - 15) 0
      let w2 := ws.getD (i - 2) 0
      let s0 := (rotr32 7 w15) ^^^ (rotr32 18 w15) ^^^ (w15 >>> 3)
      let s1 := (rotr32 17 w2) ^^^ (rotr32 19 w2) ^^^ (w2 >>> 10)
      ws ++ [w32 (ws.getD (i - 16) 0 + s0 + ws.getD (i - 7) 0 + s1)])
    block

/-- One SHA-256 round applied to the working variables `[a,b,c,d,e,f,g,h]`. -/
def sha256Round (st : List Nat) (wk : Nat × Nat) : List Nat :=
  match st with
  | [a, b, c, d, e, f, g, h] =>
    let s1 := (rotr32 6 e) ^^^ (rotr32 11 e) ^^^ (rotr32 25 e)
    let ch := (e &&& f) ^^^ ((not32 e) &&& g)
    let t1 := w32 (h + s1 + ch + wk.2 + wk.1)
    let s0 := (rotr32 2 a) ^^^ (rotr32 13 a) ^^^ (rotr32 22 a)
    let mj := (a &&& b) ^^^ (a &&& c) ^^^ (b &&& c)
    let t2 := w32 (s0 + mj)
    [w32 (t1 + t2), a, b, c, w32 (d + t1), e, f, g]
  | _ => st

/-- SHA-256 compression of one block into the running hash state. -/
def sha256Compress (h : List Nat) (block : List Nat) : List Nat :=
  let ws := sha256Schedule block
  let fin := (ws.zip sha256K).foldl sha256Round h
  (h.zip fin).map (fun p => w32 (p.1 + p.2))

/-- Big-endian bytes of a number, fixed width. -/
def beBytes : Nat → Nat → List Nat
  | 0, _ => []
  | k + 1, n => beBytes k (n / 256) ++ [n % 256]

/-- SHA-256 padding: `0x80`, zeros to 56 mod 64, 8-byte big-endian bit length. -/
def sha256Pad (msg : List Nat) : List Nat :=
  let zeros := (64 + 56 - (msg.length + 1) % 64) % 64
  msg ++ [0x80] ++ List.replicate zeros 0 ++ beBytes 8 (msg.length * 8)

/-- Group a byte list into big-endian 32-bit words (length a multiple of 4). -/
def bytesToWords : List Nat → List Nat
  | b0 :: b1 :: b2 :: b3 :: rest =>
      (((b0 * 256 + b1) * 256 + b2) * 256 + b3) :: bytesToWords rest
  | _ => []

/-- Split a word list into 16-word blocks, with fuel for termination. -/
def blocks16 : Nat → List Nat → List (List Nat)
  | 0, _ => []
  | _, [] => []
  | fuel + 1, ws => ws.take 16 :: blocks16 fuel (ws.drop 16)

/-- SHA-256 digest: message bytes to 32 digest bytes. -/
def sha256 (msg : List Nat) : List Nat :=
  let ws := bytesToWords (sha256Pad msg)
  let final := (blocks16 ws.length ws).foldl sha256Compress sha256H0
  final.foldr (fun w acc => beBytes 4 w ++ acc) []

/-- HMAC-SHA256 (RFC 2104) over byte lists, digest as 32 bytes. -/
def hmacSha256 (key msg : List Nat) : List Nat :=
  let k0 := if 64 < key.length then sha256 key else key
  let k := k0 ++ List.replicate (64 - k0.length) 0
  let ipad := k.map (fun b => b ^^^ 0x36)
  let opad := k.map (fun b => b ^^^ 0x5c)
  sha256 (opad ++ sha256 (ipad ++ msg))

/-- UTF-8 encoding of one character. -/
def utf8Char (c : Char) : List Nat :=
  let n := c.toNat
  if n < 0x80 then [n]
  else if n < 0x800 then [0xc0 ||| (n >>> 6), 0x80 ||| (n &&& 0x3f)]
  else if n < 0x10000 then
    [0xe0 ||| (n >>> 12), 0x80 ||| ((n >>> 6) &&& 0x3f), 0x80 ||| (n &&& 0x3f)]
  else
    [0xf0 ||| (n >>> 18), 0x80 ||| ((n >>> 12) &&& 0x3f),
     0x80 ||| ((n >>> 6) &&& 0x3f), 0x80 ||| (n &&& 0x3f)]

/-- UTF-8 bytes of a string (`.update(body, "utf8")`). -/
def utf8 (s : String) : List Nat :=
  s.data.foldr (fun c acc => utf8Char c ++ acc) []

/-! ## Hex encoding/decoding and the signature check -/

/-- Lowercase hex digit for a nibble. -/
def hexDigit (n : Nat) : Char :=
  if n < 10 then Char.ofNat (48 + n) else Char.ofNat (87 + n)

/-- Lowercase hex characters of a byte list (`.digest("hex")`). -/
def hexChars (l : List Nat) : List Char :=
  l.foldr (fun b acc => hexDigit (b / 16) :: hexDigit (b % 16) :: acc) []

/-- Lowercase hex string of a byte list. -/
def hexEncode (l : List Nat) : String := String.mk (hexChars l)

/-- Value of a hex character, case-insensitive, as Node's decoder reads it. -/
def hexVal (c : Char) : Option Nat :=
  if '0' ≤ c ∧ c ≤ '9' then some (c.toNat - 48)
  else if 'a' ≤ c ∧ c ≤ 'f' then some (c.toNat - 87)
  else if 'A' ≤ c ∧ c ≤ 'F' then some (c.toNat - 55)
  else none

/-- Source: `Buffer.from(s, "hex")`: decode pairs of hex characters case-insensitively,
stopping at the first invalid pair and dropping a lone trailing character. -/
def nodeHexDecode : List Char → List Nat
  | c1 :: c2 :: rest =>
    match hexVal c1, hexVal c2 with
    | some hi, some lo => (16 * hi + lo) :: nodeHexDecode rest
    | _, _ => []
  | _ => []

/-- Source: `String.prototype.replace` with a string pattern: remove the first
occurrence of `pat` (here `"sha256="`), leaving the string unchanged when the
pattern does not occur. -/
def removeFirstOcc (pat : List Char) : List Char → List Char
  | [] => []
  | c :: cs =>
    if pat.isPrefixOf (c :: cs) then (c :: cs).drop pat.length
    else c :: removeFirstOcc pat cs

/-- Source: `signature.replace("sha256=", "")`. -/
def stripSchemeTag (signature : String) : String :=
  String.mk (removeFirstOcc "sha256=".data signature.data)

/-- Source: `verifyWebhookSignature` (`webhooks/replicate/route.ts:6-30`): compute the
lowercase-hex HMAC-SHA256 of the body under the secret, strip one `"sha256="`
from the supplied signature, decode both as hex buffers, and compare with
`timingSafeEqual` — which throws on a length mismatch, caught as `false`. -/
def verifyWebhookSignature (body signature secret : String) : Bool :=
  if signature = "" ∨ secret = "" then false
  else
    let expectedSignature := hexEncode (hmacSha256 (utf8 secret) (utf8 body))
    let providedSignature := stripSchemeTag signature
    let ea := nodeHexDecode expectedSignature.data
    let pa := nodeHexDecode providedSignature.data
    if ea.length = pa.length then ea == pa else false

/-- Source: `String.prototype.toUpperCase` restricted to the ASCII range (all hex
digests are ASCII). -/
def jsToUpperCase (s : String) : String := String.mk (s.data.map Char.toUpper)

/-- Source: `String.prototype.toLowerCase` restricted to the ASCII range (all title
words are ASCII). -/
def jsToLowerCase (s : String) : String := String.mk (s.data.map Char.toLower)

/-- The acceptance condition exactly as the specification words it: the
signature, stripped of the `"sha256="` tag, equals the lowercase hex
HMAC-SHA256 of the raw body under the secret. -/
def specSignatureAccepts (body signature secret : String) : Prop :=
  stripSchemeTag signature = hexEncode (hmacSha256 (utf8 secret) (utf8 body))

/-! ## JSON values and the persisted data model -/

/-- A parsed JSON value (the result of `JSON.parse` on a webhook body). -/
inductive JVal where
  | null : JVal
  | bool (b : Bool) : JVal
  | num (q : Rat) : JVal
  | str (s : String) : JVal
  | arr (elems : List JVal) : JVal
  | obj (fields : List (String × JVal)) : JVal

mutual

/-- JavaScript string coercion of a value (template literals, `fetch` URL
arguments); number formatting is exact only for how this development uses it. -/
def jsDisplay : JVal → String
  | .null => "null"
  | .bool true => "true"
  | .bool false => "false"
  | .num q => if q.den = 1 then toString q.num else toString q
  | .str s => s
  | .arr l => String.intercalate "," (jsDisplayList l)
  | .obj _ => "[object Object]"

/-- Coercion of each element of an array (`Array.prototype.toString`). -/
def jsDisplayList : List JVal → List String
  | [] => []
  | v :: vs => jsDisplay v :: jsDisplayList vs

end

/-- Property access on a parsed value; `undefined` (here `none`) on
non-objects, as destructuring a primitive yields `undefined` fields. -/
def JVal.getField : JVal → String → Option JVal
  | .obj fields, k => (fields.find? (fun p => p.1 == k)).map (fun p => p.2)
  | _, _ => none

/-- JavaScript truthiness of a parsed value. -/
def truthyJ : JVal → Bool
  | .null => false
  | .bool b => b
  | .num q => !(q == 0)
  | .str s => !(s == "")
  | .arr _ => true
  | .obj _ => true

/-- Truthiness of a possibly-`undefined` value. -/
def otruthy : Option JVal → Bool
  | some v => truthyJ v
  | none => false

/-- Whether a parsed payload is JSON `null`: reading a property of `null`
(the destructuring at `webhooks/replicate/route.ts:139`, and the log field
access at line 133) throws a TypeError, unlike the other primitives, whose
property reads merely yield `undefined`. -/
def isNullJV : JVal → Bool
  | .null => true
  | _ => false

/-- Source: `status === "succeeded"` and friends: strict string comparison against a
possibly-`undefined` payload field. -/
def isStatus (status : Option JVal) (s : String) : Bool :=
  match status with
  | some (.str t) => t == s
  | _ => false

/-- The `generation_params` JSONB written at submission
(`generate-music/route.ts:456-460`). -/
structure GenParams where
  prompt : String := ""
  duration : Option Rat := none
  model : String := ""
deriving DecidableEq

/-- A row of the `tracks` table (the GenerationJob record, `001-create-tracks-table.sql`,
`003-add-replicate-prediction-id.sql`).  Timestamps are `Nat` instants. -/
structure Track where
  id : String
  title : String := ""
  description : String := ""
  status : String
  file_url : Option String := none
  file_path : Option String := none
  duration : Option Rat := none
  error_message : Option String := none
  replicate_prediction_id : Option String := none
  generation_params : Option GenParams := none
  selected_songs : List SelectedSong := []
  genres : List String := []
  tempo : Option Int := none
  energy : Option Rat := none
  valence : Option Rat := none
  created_at : Nat := 0
  updated_at : Nat := 0
deriving DecidableEq

/-- A row of the `track_updates` table (the NotificationEvent log,
`004-create-track-updates-table.sql`). -/
structure TrackUpdateRow where
  track_id : String
  status : String
  message : Option String := none
deriving DecidableEq

/-- An object stored in the `music` storage bucket. -/
structure StorageObject where
  key : String
  bytes : List Nat
deriving DecidableEq

/-- The durable state the routes read and write: the `tracks` table, the
storage bucket, and the `track_updates` log. -/
structure WorldState where
  tracks : List Track
  storage : List StorageObject := []
  track_updates : List TrackUpdateRow := []
deriving DecidableEq

/-- A partial update as passed to `updateTrackRecord`: only the listed
columns are written, the rest keep their stored values. -/
structure TrackPatch where
  status : Option String := none
  file_url : Option String := none
  file_path : Option String := none
  duration : Option Rat := none
  error_message : Option String := none
  replicate_prediction_id : Option String := none
  updated_at : Option Nat := none
deriving DecidableEq

/-- Overwrite an optional column only when the patch sets it. -/
def patchCol {α : Type} (new old : Option α) : Option α :=
  match new with
  | some v => some v
  | none => old

/-- Apply a patch to one row. -/
def applyPatch (t : Track) (p : TrackPatch) : Track :=
  { t with
    status := match p.status with | some s => s | none => t.status
    file_url := patchCol p.file_url t.file_url
    file_path := patchCol p.file_path t.file_path
    duration := patchCol p.duration t.duration
    error_message := patchCol p.error_message t.error_message
    replicate_prediction_id := patchCol p.replicate_prediction_id t.replicate_prediction_id
    updated_at := match p.updated_at with | some n => n | none => t.updated_at }

/-- Source: `updateTrackRecord` (`webhooks/replicate/route.ts:82-101`): single-row
update keyed by id. -/
def updateTrackRecord (tracks : List Track) (id : String) (p : TrackPatch) : List Track :=
  tracks.map (fun t => if t.id = id then applyPatch t p else t)

/-! ## The webhook endpoint (`src/app/api/webhooks/replicate/route.ts`) -/

/-- An observable external side effect of handling a callback. -/
inductive Effect where
  | download (url : String) (timeoutMs : Nat)
  | storagePut (key : String)
deriving DecidableEq

/-- Outcome of `fetch(audioUrl, { signal: AbortSignal.timeout(30000) })`. -/
inductive FetchResult where
  | ok (bytes : List Nat)
  | httpError (status : Nat) (statusText : String)
  | netError (msg : String)
deriving DecidableEq

/-- External nondeterminism the webhook handler is exposed to: the artifact
fetch and storage-backend failures for a fresh key. -/
structure WebhookOracles where
  fetchAudio : String → Nat → FetchResult
  storageFailure : String → Option String

/-- Source: `getPublicUrl(fileName)`: the durable public URL of a stored object. -/
def storagePublicUrl (fileName : String) : String :=
  "https://supabase.example/storage/v1/object/public/music/" ++ fileName

/-- Source: `uploadToSupabaseStorage` (`webhooks/replicate/route.ts:33-79`): download
the audio with a 30-second timeout, rethrow non-2xx as
`Failed to fetch audio: …`, upload under `fileName` with `upsert: false`
(never overwriting an existing key), and return the path and public URL.
Returns the thrown error message on failure, together with the effects
performed. -/
def uploadToSupabaseStorage (oracles : WebhookOracles) (storage : List StorageObject)
    (audioUrl fileName : String) :
    Except String (String × String × List StorageObject) × List Effect :=
  match oracles.fetchAudio audioUrl 30000 with
  | .netError msg => (.error msg, [.download audioUrl 30000])
  | .httpError st stx =>
      (.error ("Failed to fetch audio: " ++ toString st ++ " " ++ stx),
       [.download audioUrl 30000])
  | .ok bytes =>
      if storage.any (fun o => o.key == fileName) then
        (.error ("Supabase storage error: " ++ "The resource already exists"),
         [.download audioUrl 30000, .storagePut fileName])
      else
        match oracles.storageFailure fileName with
        | some m =>
            (.error ("Supabase storage error: " ++ m),
             [.download audioUrl 30000, .storagePut fileName])
        | none =>
            (.ok (fileName, storagePublicUrl fileName, storage ++ [⟨fileName, bytes⟩]),
             [.download audioUrl 30000, .storagePut fileName])

/-- An HTTP response: status code and the `error`/`message` string of the
JSON body. -/
structure HttpResponse where
  status : Nat
  body : String
deriving DecidableEq

/-- Environment of the webhook route. -/
structure WebhookEnv where
  replicateWebhookSecret : Option String := none

/-- An incoming callback: raw body, its `JSON.parse` result (an oracle;
`none` models a parse failure), and the `replicate-signature` header. -/
structure WebhookRequest where
  rawBody : String := ""
  parsed : Option JVal := none
  signatureHeader : Option String := none

/-- Truthiness of an environment variable or header (`undefined`/`null` or
the empty string are falsy). -/
def envTruthy : Option String → Bool
  | some s => !(s == "")
  | none => false

/-- Result of handling one callback: the response, the new durable state and
the effects performed. -/
structure WebhookResult where
  response : HttpResponse
  state : WorldState
  effects : List Effect
deriving DecidableEq

/-- Source: `.eq("replicate_prediction_id", predictionId).limit(1)`:
postgrest-js serializes the filter value into the query string by template
coercion (`eq.${value}`), so a non-string payload id is compared against the
TEXT column in its JavaScript string form (a number can match a stored
handle such as "5"). -/
def findTrackByPrediction (tracks : List Track) (predictionId : Option JVal) : Option Track :=
  match predictionId with
  | some v => tracks.find? (fun t => t.replicate_prediction_id == some (jsDisplay v))
  | none => none

/-- Source: `track.generation_params?.duration || 10`: the stored duration, with any
falsy value (absent parameters, absent field, or `0`) replaced by `10`. -/
def durationParam (track : Track) : Rat :=
  match track.generation_params with
  | some gp =>
      match gp.duration with
      | some d => if d = 0 then 10 else d
      | none => 10
  | none => 10

/-- Source: `output` to audio URL (`webhooks/replicate/route.ts:178-185`): a string is
used as is, a non-empty array contributes its first element; anything else
throws `Unexpected output format from Replicate`. -/
def audioUrlOfOutput : Option JVal → Option String
  | some (.str s) => some s
  | some (.arr (v :: _)) => some (jsDisplay v)
  | _ => none

/-- The webhook processing after the signature gate
(`webhooks/replicate/route.ts:123-257`): parse, correlate by prediction id,
and apply the status-keyed transition. -/
def webhookProcess (oracles : WebhookOracles) (now : Nat)
    (req : WebhookRequest) (st : WorldState) : WebhookResult :=
  match req.parsed with
  | none => ⟨⟨400, "Invalid JSON"⟩, st, []⟩
  | some webhookData =>
    if isNullJV webhookData then
      ⟨⟨500, "Cannot read properties of null (reading 'id')"⟩, st, []⟩
    else
    let predictionId := webhookData.getField "id"
    let status := webhookData.getField "status"
    let output := webhookData.getField "output"
    let predictionError := webhookData.getField "error"
    if !(otruthy predictionId) then ⟨⟨400, "Missing prediction ID"⟩, st, []⟩
    else
      match findTrackByPrediction st.tracks predictionId with
      | none => ⟨⟨404, "Track not found"⟩, st, []⟩
      | some track =>
        if isStatus status "succeeded" && otruthy output then
          match audioUrlOfOutput output with
          | none =>
              let p : TrackPatch :=
                { status := some "failed",
                  error_message := some "Unexpected output format from Replicate",
                  updated_at := some now }
              ⟨⟨500, "Failed to process audio"⟩,
               { st with tracks := updateTrackRecord st.tracks track.id p }, []⟩
          | some audioUrl =>
              let fileName := track.id ++ "_" ++ toString now ++ ".mp3"
              match uploadToSupabaseStorage oracles st.storage audioUrl fileName with
              | (.error msg, effs) =>
                  let p : TrackPatch :=
                    { status := some "failed", error_message := some msg,
                      updated_at := some now }
                  ⟨⟨500, "Failed to process audio"⟩,
                   { st with tracks := updateTrackRecord st.tracks track.id p }, effs⟩
              | (.ok (path, publicUrl, storage2), effs) =>
                  let p : TrackPatch :=
                    { status := some "completed", file_url := some publicUrl,
                      file_path := some path,
                      duration := some (durationParam track),
                      updated_at := some now }
                  ⟨⟨200, "Track updated successfully"⟩,
                   { st with tracks := updateTrackRecord st.tracks track.id p,
                             storage := storage2 }, effs⟩
        else if isStatus status "failed" || isStatus status "canceled" then
          let msg :=
            if otruthy predictionError then jsDisplay (predictionError.getD .null)
            else "Generation " ++ jsDisplay (status.getD .null)
          let p : TrackPatch :=
            { status := some "failed", error_message := some msg,
              updated_at := some now }
          ⟨⟨200, "Track marked as failed"⟩,
           { st with tracks := updateTrackRecord st.tracks track.id p }, []⟩
        else if isStatus status "starting" || isStatus status "processing" then
          let p : TrackPatch := { status := some "generating", updated_at := some now }
          ⟨⟨200, "Status updated"⟩,
           { st with tracks := updateTrackRecord st.tracks track.id p }, []⟩
        else ⟨⟨200, "Status noted"⟩, st, []⟩

/-- The webhook `POST` handler (`webhooks/replicate/route.ts:103-267`).
Signature verification runs only when the secret is configured AND the
header is present (`if (webhookSecret && signature)`); a missing header
skips verification entirely. -/
def webhookPOST (env : WebhookEnv) (oracles : WebhookOracles) (now : Nat)
    (req : WebhookRequest) (st : WorldState) : WebhookResult :=
  if envTruthy env.replicateWebhookSecret && envTruthy req.signatureHeader then
    if !(verifyWebhookSignature req.rawBody (req.signatureHeader.getD "")
          (env.replicateWebhookSecret.getD "")) then
      ⟨⟨401, "Invalid signature"⟩, st, []⟩
    else webhookProcess oracles now req st
  else webhookProcess oracles now req st

/-! ## The submission route (`src/app/api/generate-music/route.ts`) -/

/-- Source: `[...new Set(list)]`: deduplicate keeping first occurrences in order. -/
def dedupFirst (l : List String) : List String :=
  l.foldl (fun acc x => if acc.contains x then acc else acc ++ [x]) []

/-- Source: `[...new Set(selectedSongs.flatMap((song) => song.genres || []))]`. -/
def allGenresOf (songs : List SelectedSong) : List String :=
  dedupFirst (songs.map (fun s => s.genres.getD [])).flatten

/-- Mean tempo before rounding, as `createGenerationPrompt` computes it
(`generate-music/route.ts:388-389`). -/
def promptAvgTempo (songs : List SelectedSong) : Rat :=
  sumBy tempoOrDefault songs / songs.length

/-- Mean energy as `createGenerationPrompt` computes it
(`generate-music/route.ts:390-391`). -/
def promptAvgEnergy (songs : List SelectedSong) : Rat :=
  sumBy energyOrDefault songs / songs.length

/-- Mean valence as `createGenerationPrompt` computes it
(`generate-music/route.ts:392-393`). -/
def promptAvgValence (songs : List SelectedSong) : Rat :=
  sumBy valenceOrDefault songs / songs.length

/-- Source: `createGenerationPrompt` (`generate-music/route.ts:382-416`): the raw
description, enriched — only when reference tracks exist — with up to three
genres, the rounded mean tempo, and energy/valence mood clauses. -/
def createGenerationPrompt (description : String) (selectedSongs : List SelectedSong) : String :=
  if selectedSongs.length > 0 then
    let genres := allGenresOf selectedSongs
    let avgTempo := promptAvgTempo selectedSongs
    let avgEnergy := promptAvgEnergy selectedSongs
    let avgValence := promptAvgValence selectedSongs
    let p := description
    let p := if genres.length > 0 then
        p ++ " Incorporate elements from " ++ String.intercalate ", " (genres.take 3)
          ++ " genres."
      else p
    let p := p ++ " Target tempo around " ++ toString (jsRound avgTempo) ++ " BPM."
    let p := if avgEnergy > 7/10 then p ++ " High energy and dynamic."
      else if avgEnergy < 3/10 then p ++ " Calm and relaxed." else p
    if avgValence > 7/10 then p ++ " Upbeat and positive mood."
    else if avgValence < 3/10 then p ++ " Melancholic and introspective." else p
  else description

/-- The initial `tracks` row the submission `POST` inserts
(`generate-music/route.ts:451-468`): status `generating`, aggregates stored,
`generation_params.duration` fixed at 30, no terminal fields. -/
def initialTrack (id : String) (now : Nat) (title description : String)
    (songs : List SelectedSong) : Track :=
  { id := id
    title := title
    description := description
    selected_songs := songs
    generation_params := some
      { prompt := createGenerationPrompt description songs
        duration := some 30
        model := "musicgen" }
    genres := (allGenresOf songs).take 5
    tempo := some (aggTempo songs)
    energy := some (aggEnergy songs)
    valence := some (aggValence songs)
    status := "generating"
    created_at := now
    updated_at := now }

/-- The background continuation's success write
(`generate-music/route.ts:479-485`). -/
def bgSuccessPatch (url path pid : String) (d : Rat) : TrackPatch :=
  { status := some "completed", file_url := some url, file_path := some path
    replicate_prediction_id := some pid, duration := some d }

/-- The background continuation's failure writes
(`generate-music/route.ts:487-489` and `:494-496`): only the status column —
no `error_message` is stored. -/
def bgFailurePatch : TrackPatch := { status := some "failed" }

/-! ## The status-read endpoint (`generate-music/route.ts:517-558`) -/

/-- Source: `.eq("id", trackId).single()`: the row with the given id, if any. -/
def findTrackById (tracks : List Track) (id : String) : Option Track :=
  tracks.find? (fun t => t.id == id)

/-- Outcome of `.single()` as supabase-js implements it: exactly one matching
row yields the row and no error; zero matching rows yield no row AND the
PGRST116 error — `.single()` never returns a bare null row (that is
`.maybeSingle()`). -/
def dbSingle (tracks : List Track) (id : String) : Option Track × Option String :=
  match findTrackById tracks id with
  | some t => (some t, none)
  | none => (none, some "JSON object requested, multiple (or no) rows returned")

/-- Response of the status-read `GET`: either an error or the full row. -/
inductive StatusGetResponse where
  | badRequest (msg : String)
  | serverError (msg : String)
  | notFound (msg : String)
  | ok (track : Track)
deriving DecidableEq

/-- Whether a response is the 404 branch. -/
def isNotFound : StatusGetResponse → Bool
  | .notFound _ => true
  | _ => false

/-- The status-read `GET` handler with Supabase credentials configured
(`generate-music/route.ts:517-558`, skipping the no-credentials placeholder
branch), mirroring the route's branch order on the `.single()` outcome:
`if (error)` answers 500 `Failed to fetch track`, then `if (!track)` answers
404 — a branch `.single()` makes unreachable, since a missing row surfaces
as the PGRST116 error, not as a null row. -/
def statusGET (trackId : Option String) (st : WorldState) : StatusGetResponse :=
  match trackId with
  | none => .badRequest "Track ID is required"
  | some id =>
      match dbSingle st.tracks id with
      | (track, error) =>
          if error.isSome then .serverError "Failed to fetch track"
          else
            match track with
            | none => .notFound "Track not found"
            | some t => .ok t

/-! ## The lifecycle as a transition system

Used for the for-all-jobs-at-all-times invariants: every write path of the
two routes is a transition. -/

/-- One write-path transition of the lifecycle: the submission insert, the
background continuation's writes, or one webhook callback. -/
inductive Step : WorldState → WorldState → Prop where
  | submit (st : WorldState) (id : String) (now : Nat) (title description : String)
      (songs : List SelectedSong)
      (hvalid : ¬(description.trim = "" ∧ songs = [])) :
      Step st { st with tracks := st.tracks ++ [initialTrack id now title description songs] }
  | bgSuccess (st : WorldState) (id url path pid : String) (d : Rat) :
      Step st { st with tracks := updateTrackRecord st.tracks id (bgSuccessPatch url path pid d) }
  | bgFailure (st : WorldState) (id : String) :
      Step st { st with tracks := updateTrackRecord st.tracks id bgFailurePatch }
  | webhook (st : WorldState) (env : WebhookEnv) (oracles : WebhookOracles) (now : Nat)
      (req : WebhookRequest) :
      Step st (webhookPOST env oracles now req st).state

/-- States reachable from an empty deployment. -/
def Reachable (st : WorldState) : Prop :=
  Relation.ReflTransGen Step ⟨[], [], []⟩ st

/-- The completed-implies-artifact-URL invariant of one job record. -/
def JobOk (t : Track) : Prop := t.status = "completed" → t.file_url.isSome

/-! ## Title synthesis (`generateRandomTitle`, `generate-music/route.ts:57-172`)

Randomness: every `Math.floor(Math.random() * n)` is modelled as `r k % n`
for a choice stream `r : Nat → Nat` and a running call counter `k` — each
call consumes one stream value, and `r k % n` ranges over exactly the values
`Math.floor(Math.random() * n)` can take. -/

/-- Source: `titleWords.moods`. -/
def moods : List String :=
  ["Dreamy", "Melancholic", "Euphoric", "Serene", "Vibrant", "Nostalgic",
   "Mystical", "Peaceful", "Electric", "Soulful"]

/-- Source: `titleWords.times`. -/
def times : List String :=
  ["Midnight", "Dawn", "Sunset", "Evening", "Morning", "Twilight", "Afternoon", "Night"]

/-- Source: `titleWords.places`. -/
def places : List String :=
  ["City", "Ocean", "Forest", "Garden", "Studio", "Cafe", "Rooftop", "Valley",
   "Beach", "Mountain"]

/-- Source: `titleWords.activities`. -/
def activities : List String :=
  ["Dreams", "Memories", "Journey", "Dance", "Meditation", "Study", "Vibes",
   "Session", "Flow", "Escape"]

/-- Source: `titleWords.instruments`. -/
def instruments : List String :=
  ["Piano", "Guitar", "Synth", "Drums", "Bass", "Strings", "Vocals", "Beats"]

/-- Source: `titleWords.genres`. -/
def genresBank : List String :=
  ["Lofi", "Ambient", "Jazz", "Electronic", "Acoustic", "Chill", "Indie",
   "Neo-Soul", "Downtempo"]

/-- Source: `titleWords.descriptors`. -/
def descriptors : List String :=
  ["Smooth", "Deep", "Soft", "Warm", "Cool", "Rich", "Light", "Heavy",
   "Bright", "Dark"]

/-- Source: `titleWords.weather`. -/
def weather : List String := ["Rainy", "Sunny", "Cloudy", "Stormy", "Misty", "Windy"]

/-- Source: `titleWords.emotions`. -/
def emotions : List String :=
  ["Hopeful", "Reflective", "Joyful", "Contemplative", "Energetic", "Calm",
   "Intense", "Gentle"]

/-- Substring containment, `String.prototype.includes`. -/
def containsSub : List Char → List Char → Bool
  | [], needle => needle.isEmpty
  | c :: t, needle => needle.isPrefixOf (c :: t) || containsSub t needle

/-- The `hasKeywords` analysis of the description
(`generate-music/route.ts:72-92`); computed by the source but never used
afterwards, included for completeness. -/
def hasKeywords (description : String) : Bool :=
  (((jsToLowerCase description).splitOn " ").filter (fun w => 3 < w.length)).any
    (fun w =>
      ["rain", "piano", "guitar", "jazz", "lofi", "chill", "ambient", "study",
       "relax", "night", "day", "morning", "evening"].contains w)

/-- The song-derived characteristics the title builder branches on
(`generate-music/route.ts:94-107`). -/
structure TitleCtx where
  avgEnergy : Rat := 1/2
  avgValence : Rat := 1/2
  avgTempo : Rat := 120
  commonGenres : List String := []

/-- Characteristics of the selected songs (defaults when none are given). -/
def mkTitleCtx (songs : List SelectedSong) : TitleCtx :=
  if songs.length > 0 then
    { avgEnergy := sumBy energyOrDefault songs / songs.length
      avgValence := sumBy valenceOrDefault songs / songs.length
      avgTempo := sumBy tempoOrDefault songs / songs.length
      commonGenres := allGenresOf songs }
  else {}

/-- Source: `getRandomWord` (`generate-music/route.ts:63-69`): draw uniformly from
the words of the category not yet used (recording the drawn word's lowercase
form), or from the whole category when every word is used (recording
nothing). -/
def getRandomWord (r : Nat → Nat) (k : Nat) (used : List String)
    (category : List String) : String × List String × Nat :=
  let available := category.filter (fun w => !(used.contains (jsToLowerCase w)))
  match available with
  | [] => (category.getD (r k % category.length) "", used, k + 1)
  | a :: rest =>
      let w := (a :: rest).getD (r k % (a :: rest).length) ""
      (w, used ++ [jsToLowerCase w], k + 1)

/-- First-word pool (`generate-music/route.ts:113-127`). -/
def firstWordPool (ctx : TitleCtx) : List String :=
  if ctx.avgValence > 7/10 then
    (moods.filter (fun m => ["Euphoric", "Vibrant", "Joyful", "Energetic"].contains m)) ++
    (emotions.filter (fun e => ["Hopeful", "Joyful", "Energetic"].contains e))
  else if ctx.avgValence < 3/10 then
    (moods.filter (fun m => ["Melancholic", "Nostalgic", "Reflective"].contains m)) ++
    (emotions.filter (fun e => ["Reflective", "Contemplative"].contains e))
  else moods ++ descriptors

/-- Last-word category pool (`generate-music/route.ts:128-134`). -/
def lastCatsOf (ctx : TitleCtx) : List (List String) :=
  if ctx.avgEnergy > 3/5 then
    [activities, places, activities.filter (fun a => ["Dance", "Flow", "Session"].contains a)]
  else [activities, places]

/-- Genre words admitted to the middle pool: reference genres matching the
genre word bank by case-insensitive substring in either direction
(`generate-music/route.ts:146-155`). -/
def genreWordsOf (ctx : TitleCtx) : List String :=
  ctx.commonGenres.filter (fun genre =>
    genresBank.any (fun g =>
      containsSub (jsToLowerCase g).data (jsToLowerCase genre).data ||
      containsSub (jsToLowerCase genre).data (jsToLowerCase g).data))

/-- Middle-word category pool (`generate-music/route.ts:136-162`). -/
def middleCatsOf (ctx : TitleCtx) : List (List String) :=
  let base := [times, places, instruments, weather, descriptors]
  let base := if (genreWordsOf ctx).length > 0 then base ++ [genreWordsOf ctx] else base
  if ctx.avgTempo > 140 then base ++ [["Fast", "Quick", "Rapid", "Swift"]]
  else if ctx.avgTempo < 80 then base ++ [["Slow", "Gentle", "Lazy", "Relaxed"]]
  else base

/-- One iteration of the title loop (`generate-music/route.ts:110-169`),
appending one word; `n` is the chosen title length, `i` the position. -/
def titleStep (r : Nat → Nat) (ctx : TitleCtx) (n i k : Nat)
    (used parts : List String) : Nat × List String × List String :=
  if i = 0 then
    let (w, used2, k2) := getRandomWord r k used (firstWordPool ctx)
    (k2, used2, parts ++ [w])
  else if i = n - 1 then
    let cats := lastCatsOf ctx
    let cat := cats.getD (r k % cats.length) []
    let (w, used2, k2) := getRandomWord r (k + 1) used cat
    (k2, used2, parts ++ [w])
  else
    let cats := middleCatsOf ctx
    let cat := cats.getD (r k % cats.length) []
    let (w, used2, k2) := getRandomWord r (k + 1) used cat
    (k2, used2, parts ++ [w])

/-- The title loop: run `count` remaining iterations from position `i`. -/
def titleLoop (r : Nat → Nat) (ctx : TitleCtx) (n : Nat) :
    Nat → Nat → Nat → List String → List String → List String
  | 0, _, _, _, parts => parts
  | count + 1, i, k, used, parts =>
      let (k2, used2, parts2) := titleStep r ctx n i k used parts
      titleLoop r ctx n count (i + 1) k2 used2 parts2

/-- The words of the generated title, in order. -/
def titleParts (r : Nat → Nat) (_description : String)
    (songs : List SelectedSong) : List String :=
  let n := r 0 % 7 + 2
  let ctx := mkTitleCtx songs
  titleLoop r ctx n n 0 1 [] []

/-- Source: `generateRandomTitle` (`generate-music/route.ts:57-172`): 2–8 words
joined by single spaces.  The `description` argument feeds only the unused
`hasKeywords` analysis, mirrored in `hasKeywords`. -/
def generateRandomTitle (r : Nat → Nat) (description : String)
    (songs : List SelectedSong) : String :=
  String.intercalate " " (titleParts r description songs)

/-- All words the word banks can contribute for an empty submission. -/
def allBankWords : List String :=
  moods ++ times ++ places ++ activities ++ instruments ++ genresBank ++
    descriptors ++ weather ++ emotions

/-! # Theorems for the specification claims -/

theorem ratFloor_eq_intFloor (q : Rat) : q.floor = Int.floor q := rfl

theorem jsRound_eq_of (q : Rat) (n : Int) (h1 : (n : Rat) ≤ q + 1/2)
    (h2 : q + 1/2 < (n : Rat) + 1) : jsRound q = n := by
  rw [jsRound, ratFloor_eq_intFloor]
  exact Int.floor_eq_iff.mpr ⟨h1, h2⟩

/-! ### Supporting lemmas about hex and digest bytes -/

theorem beBytes_lt : ∀ (k n : Nat), ∀ b ∈ beBytes k n, b < 256 := by
  intro k
  induction k with
  | zero => intro n b hb; simp [beBytes] at hb
  | succ k ih =>
    intro n b hb
    simp only [beBytes, List.mem_append, List.mem_singleton] at hb
    rcases hb with hb | hb
    · exact ih _ b hb
    · subst hb; exact Nat.mod_lt _ (by norm_num)

theorem mem_foldr_beBytes :
    ∀ ws : List Nat, ∀ b ∈ ws.foldr (fun w acc => beBytes 4 w ++ acc) [], b < 256 := by
  intro ws
  induction ws with
  | nil => intro b hb; simp at hb
  | cons w ws ih =>
    intro b hb
    simp only [List.foldr_cons, List.mem_append] at hb
    rcases hb with hb | hb
    · exact beBytes_lt 4 w b hb
    · exact ih b hb

theorem sha256_mem_lt (msg : List Nat) : ∀ b ∈ sha256 msg, b < 256 :=
  mem_foldr_beBytes _

theorem hmacSha256_mem_lt (key msg : List Nat) : ∀ b ∈ hmacSha256 key msg, b < 256 :=
  sha256_mem_lt _

theorem hexVal_hexDigit : ∀ n, n < 16 → hexVal (hexDigit n) = some n := by decide

theorem nodeHexDecode_hexChars :
    ∀ l : List Nat, (∀ b ∈ l, b < 256) → nodeHexDecode (hexChars l) = l := by
  intro l
  induction l with
  | nil => intro _; rfl
  | cons b t ih =>
    intro h
    have hb : b < 256 := h b (List.mem_cons_self _ _)
    have h1 : hexVal (hexDigit (b / 16)) = some (b / 16) :=
      hexVal_hexDigit _ (Nat.div_lt_of_lt_mul (by omega))
    have h2 : hexVal (hexDigit (b % 16)) = some (b % 16) :=
      hexVal_hexDigit _ (Nat.mod_lt _ (by norm_num))
    have ht : nodeHexDecode (hexChars t) = t :=
      ih (fun x hx => h x (List.mem_cons_of_mem _ hx))
    have hc : hexChars (b :: t) = hexDigit (b / 16) :: hexDigit (b % 16) :: hexChars t := rfl
    rw [hc]
    simp only [nodeHexDecode, h1, h2, ht]
    have hdm : 16 * (b / 16) + b % 16 = b := by omega
    rw [hdm]

/-- Characterization of `verifyWebhookSignature`: with a non-empty signature
and secret, it accepts exactly when the supplied signature, stripped of one
`"sha256="` tag and hex-decoded with Node's case-insensitive truncating
decoder, yields the 32 HMAC-SHA256 bytes of the raw body under the secret. -/
theorem verifyWebhookSignature_eq_true_iff (body signature secret : String)
    (hs : signature ≠ "") (hk : secret ≠ "") :
    verifyWebhookSignature body signature secret = true ↔
      nodeHexDecode (stripSchemeTag signature).data =
        hmacSha256 (utf8 secret) (utf8 body) := by
  have hroundtrip :
      nodeHexDecode (hexEncode (hmacSha256 (utf8 secret) (utf8 body))).data =
        hmacSha256 (utf8 secret) (utf8 body) :=
    nodeHexDecode_hexChars _ (hmacSha256_mem_lt _ _)
  simp only [verifyWebhookSignature, hs, hk, false_or, or_self, if_false, hroundtrip]
  split_ifs with hlen
  · exact beq_iff_eq.trans eq_comm
  · constructor
    · intro h; exact absurd h (by simp)
    · intro h; exact absurd (congrArg List.length h.symm) hlen


/-! ## C7 / C10 — aggregate audio-feature computation -/

/-- Rounding to two decimals as the spec words it. -/
def specRound2 (q : Rat) : Rat := jsRound (q * 100) / 100

/-- The energy of a track exactly as the claim words it: the supplied value
when the audio-feature vector is present, else the default. -/
def specEnergyContrib (s : SelectedSong) : Rat :=
  match s.audio_features with
  | some f => f.energy
  | none => 1/2

/-- Aggregate energy exactly as the claim words it: the arithmetic mean of
the per-track energies (defaults only for tracks missing the vector),
rounded to two decimals; `1/2` for an empty list. -/
def specAggEnergy (songs : List SelectedSong) : Rat :=
  if songs = [] then 1/2
  else specRound2 ((songs.map specEnergyContrib).sum / songs.length)

/-- Per-track energy as the amended claim words it: the supplied value when
the vector is present and the value is nonzero (non-falsy), else the
default. -/
def specEnergyContribA (s : SelectedSong) : Rat :=
  (((s.audio_features.map (fun f => f.energy)).filter (fun v => !(v == 0))).getD (1/2))

/-- Per-track valence under the amended reading. -/
def specValenceContribA (s : SelectedSong) : Rat :=
  (((s.audio_features.map (fun f => f.valence)).filter (fun v => !(v == 0))).getD (1/2))

/-- Per-track tempo under the amended reading. -/
def specTempoContribA (s : SelectedSong) : Rat :=
  (((s.audio_features.map (fun f => f.tempo)).filter (fun v => !(v == 0))).getD 120)

/-- Aggregate energy under the amended reading. -/
def specAggEnergyA (songs : List SelectedSong) : Rat :=
  if songs = [] then 1/2
  else specRound2 ((songs.map specEnergyContribA).sum / songs.length)

/-- Aggregate valence under the amended reading. -/
def specAggValenceA (songs : List SelectedSong) : Rat :=
  if songs = [] then 1/2
  else specRound2 ((songs.map specValenceContribA).sum / songs.length)

/-- Aggregate tempo under the amended reading. -/
def specAggTempoA (songs : List SelectedSong) : Int :=
  if songs = [] then 120
  else jsRound ((songs.map specTempoContribA).sum / songs.length)

theorem sumBy_eq_sum_map (f : SelectedSong → Rat) :
    ∀ (l : List SelectedSong) (a : Rat),
      l.foldl (fun x s => x + f s) a = a + (l.map f).sum := by
  intro l
  induction l with
  | nil => intro a; simp
  | cons s t ih =>
    intro a
    simp only [List.foldl_cons, List.map_cons, List.sum_cons, ih]
    ring

theorem specEnergyContribA_eq (s : SelectedSong) :
    specEnergyContribA s = energyOrDefault s := by
  unfold specEnergyContribA energyOrDefault
  match s.audio_features with
  | some f =>
      by_cases h : f.energy = 0 <;>
        simp [Option.filter, h]
  | none => rfl

theorem specValenceContribA_eq (s : SelectedSong) :
    specValenceContribA s = valenceOrDefault s := by
  unfold specValenceContribA valenceOrDefault
  match s.audio_features with
  | some f =>
      by_cases h : f.valence = 0 <;>
        simp [Option.filter, h]
  | none => rfl

theorem specTempoContribA_eq (s : SelectedSong) :
    specTempoContribA s = tempoOrDefault s := by
  unfold specTempoContribA tempoOrDefault
  match s.audio_features with
  | some f =>
      by_cases h : f.tempo = 0 <;>
        simp [Option.filter, h]
  | none => rfl

theorem sumBy_eq (f : SelectedSong → Rat) (l : List SelectedSong) :
    sumBy f l = (l.map f).sum := by
  rw [sumBy, sumBy_eq_sum_map, zero_add]

theorem aggTempo_eq_specA (songs : List SelectedSong) :
    aggTempo songs = specAggTempoA songs := by
  cases songs with
  | nil => rfl
  | cons s t =>
    simp only [aggTempo, specAggTempoA]
    rw [if_pos (by simp), if_neg (by simp)]
    congr 1
    rw [sumBy_eq, List.map_congr_left (fun a _ => (specTempoContribA_eq a).symm)]

theorem aggEnergy_eq_specA (songs : List SelectedSong) :
    aggEnergy songs = specAggEnergyA songs := by
  cases songs with
  | nil =>
    have h : jsRound (50 : Rat) = 50 := jsRound_eq_of 50 50 (by norm_num) (by norm_num)
    simp [aggEnergy, avgEnergyOf, specAggEnergyA]
    norm_num [h]
  | cons s t =>
    simp only [aggEnergy, avgEnergyOf, specAggEnergyA, specRound2]
    rw [if_pos (by simp), if_neg (by simp)]
    congr 3
    rw [sumBy_eq, List.map_congr_left (fun a _ => (specEnergyContribA_eq a).symm)]

theorem aggValence_eq_specA (songs : List SelectedSong) :
    aggValence songs = specAggValenceA songs := by
  cases songs with
  | nil =>
    have h : jsRound (50 : Rat) = 50 := jsRound_eq_of 50 50 (by norm_num) (by norm_num)
    simp [aggValence, avgValenceOf, specAggValenceA]
    norm_num [h]
  | cons s t =>
    simp only [aggValence, avgValenceOf, specAggValenceA, specRound2]
    rw [if_pos (by simp), if_neg (by simp)]
    congr 3
    rw [sumBy_eq, List.map_congr_left (fun a _ => (specValenceContribA_eq a).symm)]

/-- C7, counterexample: the claim's reading — a supplied feature value is
used as long as the vector is present — fails on a track whose energy is
exactly 0: the route stores aggregate energy 0.5 (the falsy default), not
the claimed mean 0. -/
theorem C7_counterexample :
    ¬ (aggEnergy [{ audio_features := some { energy := 0, valence := 1/2, tempo := 100 } }] =
       specAggEnergy [{ audio_features := some { energy := 0, valence := 1/2, tempo := 100 } }]) := by
  have h50 : jsRound (50 : Rat) = 50 := jsRound_eq_of 50 50 (by norm_num) (by norm_num)
  have h0 : jsRound (0 : Rat) = 0 := jsRound_eq_of 0 0 (by norm_num) (by norm_num)
  have hcode : aggEnergy [({ audio_features := some { energy := 0, valence := 1/2, tempo := 100 } } : SelectedSong)] = 1/2 := by
    simp [aggEnergy, avgEnergyOf, sumBy, energyOrDefault]
    norm_num [h50]
  have hspec : specAggEnergy [({ audio_features := some { energy := 0, valence := 1/2, tempo := 100 } } : SelectedSong)] = 0 := by
    simp [specAggEnergy, specEnergyContrib, specRound2]
    norm_num [h0]
  rw [hcode, hspec]
  norm_num

/-- C7, amended: the aggregates are the rounded means of the per-track
values where a track missing its audio-feature vector — or carrying a falsy
(zero) individual value — contributes the defaults energy 0.5, valence 0.5,
tempo 120 before averaging; an empty reference list yields exactly
tempo 120, energy 0.5, valence 0.5; energies [0.2, 0.8] give mean energy 0.5
and tempos [100, 140] give mean tempo 120; and a pair of tracks, one with
features and one without, defaults the latter before averaging. -/
theorem C7_amended :
    (∀ songs : List SelectedSong,
        aggTempo songs = specAggTempoA songs ∧
        aggEnergy songs = specAggEnergyA songs ∧
        aggValence songs = specAggValenceA songs) ∧
    (aggTempo [] = 120 ∧ aggEnergy [] = 1/2 ∧ aggValence [] = 1/2) ∧
    aggEnergy [{ audio_features := some { energy := 1/5, valence := 1/2, tempo := 100 } },
               { audio_features := some { energy := 4/5, valence := 1/2, tempo := 140 } }] = 1/2 ∧
    aggTempo [{ audio_features := some { energy := 1/5, valence := 1/2, tempo := 100 } },
              { audio_features := some { energy := 4/5, valence := 1/2, tempo := 140 } }] = 120 ∧
    aggEnergy [{ audio_features := some { energy := 1/5, valence := 3/10, tempo := 100 } }, {}] = 7/20 ∧
    aggTempo [{ audio_features := some { energy := 1/5, valence := 3/10, tempo := 100 } }, {}] = 110 := by
  refine ⟨fun songs => ⟨aggTempo_eq_specA songs, aggEnergy_eq_specA songs, aggValence_eq_specA songs⟩,
    ⟨rfl, ?_, ?_⟩, ?_, ?_, ?_, ?_⟩
  · have h : jsRound (50 : Rat) = 50 := jsRound_eq_of 50 50 (by norm_num) (by norm_num)
    simp [aggEnergy, avgEnergyOf]
    norm_num [h]
  · have h : jsRound (50 : Rat) = 50 := jsRound_eq_of 50 50 (by norm_num) (by norm_num)
    simp [aggValence, avgValenceOf]
    norm_num [h]
  · have h : jsRound (50 : Rat) = 50 := jsRound_eq_of 50 50 (by norm_num) (by norm_num)
    simp [aggEnergy, avgEnergyOf, sumBy, energyOrDefault]
    norm_num [h]
  · have h : jsRound (120 : Rat) = 120 := jsRound_eq_of 120 120 (by norm_num) (by norm_num)
    simp [aggTempo, sumBy, tempoOrDefault]
    norm_num [h]
  · have h : jsRound (35 : Rat) = 35 := jsRound_eq_of 35 35 (by norm_num) (by norm_num)
    simp [aggEnergy, avgEnergyOf, sumBy, energyOrDefault]
    norm_num [h]
  · have h : jsRound (110 : Rat) = 110 := jsRound_eq_of 110 110 (by norm_num) (by norm_num)
    simp [aggTempo, sumBy, tempoOrDefault]
    norm_num [h]

/-- C10: in the aggregate computation, the prompt enrichment and the title
context, a track whose supplied energy/valence/tempo is exactly 0 is treated
the same as a track with the vector absent — the falsy value is replaced by
the default before averaging — and two tracks with energies [0, 1] yield
aggregate energy 0.75, not 0.5. -/
theorem C10_falsy_defaulting :
    (∀ (s : SelectedSong) (f : AudioFeatures),
        energyOrDefault { s with audio_features := some { f with energy := 0 } } =
          energyOrDefault { s with audio_features := none } ∧
        valenceOrDefault { s with audio_features := some { f with valence := 0 } } =
          valenceOrDefault { s with audio_features := none } ∧
        tempoOrDefault { s with audio_features := some { f with tempo := 0 } } =
          tempoOrDefault { s with audio_features := none } ∧
        energyOrDefault { s with audio_features := none } = 1/2 ∧
        valenceOrDefault { s with audio_features := none } = 1/2 ∧
        tempoOrDefault { s with audio_features := none } = 120) ∧
    aggEnergy [{ audio_features := some { energy := 0, valence := 1/2, tempo := 100 } },
               { audio_features := some { energy := 1, valence := 1/2, tempo := 100 } }] = 3/4 ∧
    ¬ (aggEnergy [{ audio_features := some { energy := 0, valence := 1/2, tempo := 100 } },
                  { audio_features := some { energy := 1, valence := 1/2, tempo := 100 } }] = 1/2) ∧
    promptAvgEnergy [{ audio_features := some { energy := 0, valence := 1/2, tempo := 100 } },
                     { audio_features := some { energy := 1, valence := 1/2, tempo := 100 } }] = 3/4 ∧
    (mkTitleCtx [{ audio_features := some { energy := 0, valence := 1/2, tempo := 100 } },
                 { audio_features := some { energy := 1, valence := 1/2, tempo := 100 } }]).avgEnergy = 3/4 := by
  have h75 : jsRound (75 : Rat) = 75 := jsRound_eq_of 75 75 (by norm_num) (by norm_num)
  have hagg : aggEnergy [({ audio_features := some { energy := 0, valence := 1/2, tempo := 100 } } : SelectedSong),
      { audio_features := some { energy := 1, valence := 1/2, tempo := 100 } }] = 3/4 := by
    simp [aggEnergy, avgEnergyOf, sumBy, energyOrDefault]
    norm_num [h75]
  refine ⟨fun s f => ⟨rfl, rfl, rfl, rfl, rfl, rfl⟩, hagg, ?_, ?_, ?_⟩
  · rw [hagg]; norm_num
  · simp [promptAvgEnergy, sumBy, energyOrDefault]
    norm_num
  · simp [mkTitleCtx, sumBy, energyOrDefault]
    norm_num



/-! ## Shared facts about the webhook gate -/

/-- When no secret/signature pair is in force, or the signature verifies, the
handler proceeds to processing. -/
theorem webhookPOST_eq_process (env : WebhookEnv) (oracles : WebhookOracles) (now : Nat)
    (req : WebhookRequest) (st : WorldState)
    (hauth : (envTruthy env.replicateWebhookSecret && envTruthy req.signatureHeader) = false ∨
      verifyWebhookSignature req.rawBody (req.signatureHeader.getD "")
        (env.replicateWebhookSecret.getD "") = true) :
    webhookPOST env oracles now req st = webhookProcess oracles now req st := by
  rcases hauth with h | h <;> simp [webhookPOST, h]

/-! ## C8 — status-read endpoint -/

/-- C8: the status-read endpoint returns the full stored record when a job
with the requested id exists — but for a missing id, `.single()` surfaces
the PGRST116 error, the route takes the `if (error)` branch and answers
500 `Failed to fetch track`, never the claimed 404: the route's own
`if (!track)` 404 branch is unreachable on every input. -/
theorem C8_missing_id_500 :
    statusGET (some "t1") ⟨[{ id := "t1", status := "generating" }], [], []⟩ =
      .ok { id := "t1", status := "generating" } ∧
    statusGET (some "missing") ⟨[{ id := "t1", status := "generating" }], [], []⟩ =
      .serverError "Failed to fetch track" ∧
    (∀ (trackId : Option String) (st : WorldState),
       isNotFound (statusGET trackId st) = false) ∧
    (∀ (st : WorldState) (id : String) (t : Track), findTrackById st.tracks id = some t →
       statusGET (some id) st = .ok t) := by
  refine ⟨rfl, rfl, ?_, ?_⟩
  · intro trackId st
    match trackId with
    | none => rfl
    | some id =>
        rw [statusGET]
        match hf : findTrackById st.tracks id with
        | some t => simp [dbSingle, hf, isNotFound]
        | none => simp [dbSingle, hf, isNotFound]
  · intro st id t hf
    simp [statusGET, dbSingle, hf]

/-! ## C6 — rejecting callbacks without touching state -/

/-- A payload with a truthy id field cannot be JSON null (property reads of
null throw; the truthiness gate already saw a field). -/
theorem isNullJV_eq_false_of_truthy_id (p : JVal)
    (hid : otruthy (p.getField "id") = true) : isNullJV p = false := by
  cases p <;>
    first
      | rfl
      | (exfalso
         rw [show JVal.getField .null "id" = none from rfl] at hid
         simp [otruthy] at hid)

/-- C6, counterexample: the body `"null"` is parseable JSON whose payload
lacks a provider job handle, yet the handler answers 500 (the TypeError from
reading `id` on `null`, caught by the outer handler), not the claimed 400 —
though it still mutates nothing. -/
theorem C6_counterexample :
    (webhookPOST {} ⟨fun _ _ => .ok [], fun _ => none⟩ 5
        { rawBody := "null", parsed := some .null }
        ⟨[{ id := "t1", status := "generating" }], [], []⟩) =
      ⟨⟨500, "Cannot read properties of null (reading 'id')"⟩,
       ⟨[{ id := "t1", status := "generating" }], [], []⟩, []⟩ ∧
    (500 : Nat) ≠ 400 :=
  ⟨rfl, by decide⟩

/-- C6, amended: once the signature gate passes (no gate in force, or a
valid signature), a callback with an unparsable body answers 400 Invalid
JSON; a JSON-null payload makes the handler throw reading the id property
and answers 500; any other payload without a truthy prediction id answers
400 Missing prediction ID; and a truthy handle matching no stored job
(after PostgREST text coercion of the filter value) answers 404 Track not
found — each case leaving the tracks, storage and notification log
untouched and performing no effect. -/
theorem C6_error_paths (env : WebhookEnv) (oracles : WebhookOracles) (now : Nat)
    (req : WebhookRequest) (st : WorldState)
    (hauth : (envTruthy env.replicateWebhookSecret && envTruthy req.signatureHeader) = false ∨
      verifyWebhookSignature req.rawBody (req.signatureHeader.getD "")
        (env.replicateWebhookSecret.getD "") = true) :
    (req.parsed = none →
       webhookPOST env oracles now req st = ⟨⟨400, "Invalid JSON"⟩, st, []⟩) ∧
    (req.parsed = some .null →
       webhookPOST env oracles now req st =
         ⟨⟨500, "Cannot read properties of null (reading 'id')"⟩, st, []⟩) ∧
    (∀ p, req.parsed = some p → isNullJV p = false → otruthy (p.getField "id") = false →
       webhookPOST env oracles now req st = ⟨⟨400, "Missing prediction ID"⟩, st, []⟩) ∧
    (∀ p, req.parsed = some p → otruthy (p.getField "id") = true →
       findTrackByPrediction st.tracks (p.getField "id") = none →
       webhookPOST env oracles now req st = ⟨⟨404, "Track not found"⟩, st, []⟩) := by
  rw [webhookPOST_eq_process env oracles now req st hauth]
  refine ⟨?_, ?_, ?_, ?_⟩
  · intro h; simp [webhookProcess, h]
  · intro h; simp [webhookProcess, h, isNullJV]
  · intro p hp hnn hid; simp [webhookProcess, hp, hnn, hid]
  · intro p hp hid hfind
    have hnn : isNullJV p = false := isNullJV_eq_false_of_truthy_id p hid
    simp [webhookProcess, hp, hnn, hid, hfind]

/-- C6, amended, witness: the four rejection categories at concrete inputs,
with the single stored job untouched each time. -/
theorem C6_error_paths_witness :
    (webhookPOST {} ⟨fun _ _ => .ok [], fun _ => none⟩ 5
        { rawBody := "not json" } ⟨[{ id := "t1", status := "generating" }], [], []⟩ =
      ⟨⟨400, "Invalid JSON"⟩, ⟨[{ id := "t1", status := "generating" }], [], []⟩, []⟩) ∧
    (webhookPOST {} ⟨fun _ _ => .ok [], fun _ => none⟩ 5
        { rawBody := "null", parsed := some .null }
        ⟨[{ id := "t1", status := "generating" }], [], []⟩ =
      ⟨⟨500, "Cannot read properties of null (reading 'id')"⟩,
       ⟨[{ id := "t1", status := "generating" }], [], []⟩, []⟩) ∧
    (webhookPOST {} ⟨fun _ _ => .ok [], fun _ => none⟩ 5
        { parsed := some (.obj [("status", .str "succeeded")]) }
        ⟨[{ id := "t1", status := "generating" }], [], []⟩ =
      ⟨⟨400, "Missing prediction ID"⟩, ⟨[{ id := "t1", status := "generating" }], [], []⟩, []⟩) ∧
    (webhookPOST {} ⟨fun _ _ => .ok [], fun _ => none⟩ 5
        { parsed := some (.obj [("id", .str "nope"), ("status", .str "succeeded")]) }
        ⟨[{ id := "t1", status := "generating" }], [], []⟩ =
      ⟨⟨404, "Track not found"⟩, ⟨[{ id := "t1", status := "generating" }], [], []⟩, []⟩) :=
  ⟨(C6_error_paths {} ⟨fun _ _ => .ok [], fun _ => none⟩ 5
      { rawBody := "not json" } ⟨[{ id := "t1", status := "generating" }], [], []⟩
      (Or.inl rfl)).1 rfl,
   (C6_error_paths {} ⟨fun _ _ => .ok [], fun _ => none⟩ 5
      { rawBody := "null", parsed := some .null }
      ⟨[{ id := "t1", status := "generating" }], [], []⟩
      (Or.inl rfl)).2.1 rfl,
   (C6_error_paths {} ⟨fun _ _ => .ok [], fun _ => none⟩ 5
      { parsed := some (.obj [("status", .str "succeeded")]) }
      ⟨[{ id := "t1", status := "generating" }], [], []⟩
      (Or.inl rfl)).2.2.1 _ rfl rfl rfl,
   (C6_error_paths {} ⟨fun _ _ => .ok [], fun _ => none⟩ 5
      { parsed := some (.obj [("id", .str "nope"), ("status", .str "succeeded")]) }
      ⟨[{ id := "t1", status := "generating" }], [], []⟩
      (Or.inl rfl)).2.2.2 _ rfl rfl rfl⟩

/-! ## C3 — missing signature with a configured secret -/

/-- C3: with a webhook secret configured and no signature header, the
handler does not answer 401 — it processes the callback and mutates the
record (here a `processing` ping resets a completed job to `generating`),
contradicting the claimed rejection. -/
theorem C3_missing_signature_processed :
    (webhookPOST ⟨some "whsec_test"⟩ ⟨fun _ _ => .ok [], fun _ => none⟩ 7
        { rawBody := "{}",
          parsed := some (.obj [("id", .str "p1"), ("status", .str "processing")]),
          signatureHeader := none }
        ⟨[{ id := "t1", status := "completed", file_url := some "u",
            replicate_prediction_id := some "p1", updated_at := 3 }], [], []⟩) =
      ⟨⟨200, "Status updated"⟩,
       ⟨[{ id := "t1", status := "generating", file_url := some "u",
           replicate_prediction_id := some "p1", updated_at := 7 }], [], []⟩, []⟩ ∧
    (200 : Nat) ≠ 401 ∧
    ({ id := "t1", status := "generating", file_url := some "u",
       replicate_prediction_id := some "p1", updated_at := 7 } : Track) ≠
      { id := "t1", status := "completed", file_url := some "u",
        replicate_prediction_id := some "p1", updated_at := 3 } := by
  refine ⟨?_, by decide, by decide⟩
  rfl

/-! ## C1 — no terminal-state guard -/

/-- C1, counterexample: on a completed job, a late `processing` ping resets
the status to `generating`, and a duplicate `succeeded` event performs a
fresh artifact download and a second storage write under a new
timestamp-suffixed key — terminal states are not guarded. -/
theorem C1_counterexample :
    ((webhookPOST {} ⟨fun _ _ => .ok [9], fun _ => none⟩ 7
        { parsed := some (.obj [("id", .str "p1"), ("status", .str "processing")]) }
        ⟨[{ id := "t1", status := "completed", file_url := some "u", file_path := some "fp",
            duration := some 30, replicate_prediction_id := some "p1", updated_at := 3 }],
         [], []⟩).state.tracks.map (fun t => t.status)) = ["generating"] ∧
    ((webhookPOST {} ⟨fun _ _ => .ok [9], fun _ => none⟩ 7
        { parsed := some (.obj [("id", .str "p1"), ("status", .str "succeeded"),
                                ("output", .str "https://r.dev/a.mp3")]) }
        ⟨[{ id := "t1", status := "completed", file_url := some "u", file_path := some "fp",
            duration := some 30, replicate_prediction_id := some "p1", updated_at := 3 }],
         [], []⟩).effects) =
      [.download "https://r.dev/a.mp3" 30000, .storagePut "t1_7.mp3"] ∧
    ((webhookPOST {} ⟨fun _ _ => .ok [9], fun _ => none⟩ 7
        { parsed := some (.obj [("id", .str "p1"), ("status", .str "succeeded"),
                                ("output", .str "https://r.dev/a.mp3")]) }
        ⟨[{ id := "t1", status := "completed", file_url := some "u", file_path := some "fp",
            duration := some 30, replicate_prediction_id := some "p1", updated_at := 3 }],
         [], []⟩).state.storage.map (fun o => o.key)) = ["t1_7.mp3"] := by
  refine ⟨rfl, rfl, rfl⟩

/-- C1, amended: the handler applies callbacks without consulting the job's
current status; in particular a late `starting`/`processing` ping on a
terminal job resets its status to `generating`, bumps `updated_at`, leaves
`file_url`, `file_path`, `duration` and `error_message` at their stored
values, performs no download or storage write, and answers 200. -/
theorem C1_amended (env : WebhookEnv) (oracles : WebhookOracles) (now : Nat)
    (req : WebhookRequest) (st : WorldState) (p : JVal) (trk : Track)
    (hauth : (envTruthy env.replicateWebhookSecret && envTruthy req.signatureHeader) = false ∨
      verifyWebhookSignature req.rawBody (req.signatureHeader.getD "")
        (env.replicateWebhookSecret.getD "") = true)
    (hp : req.parsed = some p)
    (hidt : otruthy (p.getField "id") = true)
    (hfind : findTrackByPrediction st.tracks (p.getField "id") = some trk)
    (_hterm : trk.status = "completed" ∨ trk.status = "failed")
    (hstat : p.getField "status" = some (.str "starting") ∨
             p.getField "status" = some (.str "processing")) :
    (webhookPOST env oracles now req st).response = ⟨200, "Status updated"⟩ ∧
    (webhookPOST env oracles now req st).effects = [] ∧
    (webhookPOST env oracles now req st).state.storage = st.storage ∧
    (webhookPOST env oracles now req st).state.tracks =
      st.tracks.map (fun t => if t.id = trk.id
        then { t with status := "generating", updated_at := now } else t) := by
  rw [webhookPOST_eq_process env oracles now req st hauth]
  have hmap : updateTrackRecord st.tracks trk.id
      ({ status := some "generating", updated_at := some now } : TrackPatch) =
      st.tracks.map (fun t => if t.id = trk.id
        then { t with status := "generating", updated_at := now } else t) := by
    simp [updateTrackRecord, applyPatch, patchCol]
  have hnn : isNullJV p = false := isNullJV_eq_false_of_truthy_id p hidt
  rcases hstat with h | h <;>
    simp [webhookProcess, hp, hnn, hidt, hfind, h, isStatus, hmap]

/-- C1, amended, witness: the late-ping reset at a concrete completed job. -/
theorem C1_amended_witness :
    (webhookPOST {} ⟨fun _ _ => .ok [], fun _ => none⟩ 7
        { parsed := some (.obj [("id", .str "p1"), ("status", .str "processing")]) }
        ⟨[{ id := "t1", status := "completed", file_url := some "u",
            replicate_prediction_id := some "p1", updated_at := 3 }], [], []⟩).response =
      ⟨200, "Status updated"⟩ :=
  (C1_amended {} ⟨fun _ _ => .ok [], fun _ => none⟩ 7
      { parsed := some (.obj [("id", .str "p1"), ("status", .str "processing")]) }
      ⟨[{ id := "t1", status := "completed", file_url := some "u",
          replicate_prediction_id := some "p1", updated_at := 3 }], [], []⟩
      (.obj [("id", .str "p1"), ("status", .str "processing")])
      { id := "t1", status := "completed", file_url := some "u",
        replicate_prediction_id := some "p1", updated_at := 3 }
      (Or.inl rfl) rfl rfl rfl (Or.inl rfl) (Or.inr rfl)).1



/-! ## C2 — the succeeded path -/

/-- C2, counterexample: a correlated job whose stored generation parameters
carry `duration: 0` — present but falsy — completes with duration 10, not
the stored 0, because the code tests falsiness (`|| 10`), refuting the
claim's "taken from the job's stored generation parameters if present". -/
theorem C2_counterexample :
    ((webhookPOST {} ⟨fun _ _ => .ok [9], fun _ => none⟩ 7
        { parsed := some (.obj [("id", .str "p1"), ("status", .str "succeeded"),
                                ("output", .str "https://r.dev/a.mp3")]) }
        ⟨[{ id := "t1", status := "generating", replicate_prediction_id := some "p1",
            generation_params := some { prompt := "p", duration := some 0, model := "musicgen" } }],
         [], []⟩).state.tracks.map (fun t => (t.status, t.duration))) =
      [("completed", some 10)] ∧
    some (10 : Rat) ≠ some 0 := ⟨rfl, by decide⟩

/-- C2, amended: on a `succeeded` callback whose output is a single
non-empty URL or a list with a string head, the handler downloads the
artifact with a 30-second timeout; on success it writes the bytes under the
key `jobId_timestamp.mp3` (upsert disabled — an existing key fails rather
than overwrite), completes the job with the storage public URL, path and a
duration taken from the stored generation parameters when present and
nonzero, else the fixed default 10; on a non-2xx response, a network
failure, or a storage-key collision the job transitions to failed with the
error captured in error_message. -/
theorem C2_amended (env : WebhookEnv) (oracles : WebhookOracles) (now : Nat)
    (req : WebhookRequest) (st : WorldState) (p : JVal) (trk : Track) (url : String)
    (hauth : (envTruthy env.replicateWebhookSecret && envTruthy req.signatureHeader) = false ∨
      verifyWebhookSignature req.rawBody (req.signatureHeader.getD "")
        (env.replicateWebhookSecret.getD "") = true)
    (hp : req.parsed = some p)
    (hidt : otruthy (p.getField "id") = true)
    (hfind : findTrackByPrediction st.tracks (p.getField "id") = some trk)
    (hstat : p.getField "status" = some (.str "succeeded"))
    (hne : url ≠ "")
    (hout : p.getField "output" = some (.str url) ∨
            ∃ rest, p.getField "output" = some (.arr (.str url :: rest))) :
    (∀ bytes, oracles.fetchAudio url 30000 = .ok bytes →
      (st.storage.any (fun o => o.key == trk.id ++ "_" ++ toString now ++ ".mp3")) = false →
      oracles.storageFailure (trk.id ++ "_" ++ toString now ++ ".mp3") = none →
      webhookPOST env oracles now req st =
        ⟨⟨200, "Track updated successfully"⟩,
         { st with
            tracks := updateTrackRecord st.tracks trk.id
              { status := some "completed",
                file_url := some (storagePublicUrl (trk.id ++ "_" ++ toString now ++ ".mp3")),
                file_path := some (trk.id ++ "_" ++ toString now ++ ".mp3"),
                duration := some (durationParam trk),
                updated_at := some now },
            storage := st.storage ++ [⟨trk.id ++ "_" ++ toString now ++ ".mp3", bytes⟩] },
         [.download url 30000, .storagePut (trk.id ++ "_" ++ toString now ++ ".mp3")]⟩) ∧
    (∀ code text, oracles.fetchAudio url 30000 = .httpError code text →
      webhookPOST env oracles now req st =
        ⟨⟨500, "Failed to process audio"⟩,
         { st with
            tracks := updateTrackRecord st.tracks trk.id
              { status := some "failed",
                error_message := some ("Failed to fetch audio: " ++ toString code ++ " " ++ text),
                updated_at := some now } },
         [.download url 30000]⟩) ∧
    (∀ msg, oracles.fetchAudio url 30000 = .netError msg →
      webhookPOST env oracles now req st =
        ⟨⟨500, "Failed to process audio"⟩,
         { st with
            tracks := updateTrackRecord st.tracks trk.id
              { status := some "failed", error_message := some msg,
                updated_at := some now } },
         [.download url 30000]⟩) ∧
    (∀ bytes, oracles.fetchAudio url 30000 = .ok bytes →
      (st.storage.any (fun o => o.key == trk.id ++ "_" ++ toString now ++ ".mp3")) = true →
      webhookPOST env oracles now req st =
        ⟨⟨500, "Failed to process audio"⟩,
         { st with
            tracks := updateTrackRecord st.tracks trk.id
              { status := some "failed",
                error_message := some ("Supabase storage error: " ++ "The resource already exists"),
                updated_at := some now } },
         [.download url 30000,
          .storagePut (trk.id ++ "_" ++ toString now ++ ".mp3")]⟩) ∧
    (∀ gp d, trk.generation_params = some gp → gp.duration = some d → ¬ d = 0 →
      durationParam trk = d) ∧
    (trk.generation_params = none → durationParam trk = 10) := by
  have hsucc : isStatus (p.getField "status") "succeeded" = true := by
    simp [isStatus, hstat]
  have hurl : audioUrlOfOutput (p.getField "output") = some url := by
    rcases hout with h | ⟨rest, h⟩ <;> simp [audioUrlOfOutput, h, jsDisplay]
  have hotruthy : otruthy (p.getField "output") = true := by
    rcases hout with h | ⟨rest, h⟩ <;> simp [otruthy, truthyJ, h, hne]
  have hnn : isNullJV p = false := isNullJV_eq_false_of_truthy_id p hidt
  rw [webhookPOST_eq_process env oracles now req st hauth]
  refine ⟨?_, ?_, ?_, ?_, ?_, ?_⟩
  · intro bytes hfetch hfresh hnofail
    simp [webhookProcess, hp, hnn, hidt, hfind, hsucc, hotruthy, hurl,
      uploadToSupabaseStorage, hfetch, hfresh, hnofail]
  · intro code text hfetch
    simp [webhookProcess, hp, hnn, hidt, hfind, hsucc, hotruthy, hurl,
      uploadToSupabaseStorage, hfetch]
  · intro msg hfetch
    simp [webhookProcess, hp, hnn, hidt, hfind, hsucc, hotruthy, hurl,
      uploadToSupabaseStorage, hfetch]
  · intro bytes hfetch hdup
    simp [webhookProcess, hp, hnn, hidt, hfind, hsucc, hotruthy, hurl,
      uploadToSupabaseStorage, hfetch, hdup]
  · intro gp d hgp hd hdz
    simp [durationParam, hgp, hd, hdz]
  · intro h
    simp [durationParam, h]

/-- C2, amended, witness: the success branch at a concrete job and
callback. -/
theorem C2_amended_witness :
    webhookPOST {} ⟨fun _ _ => .ok [9], fun _ => none⟩ 7
        { parsed := some (.obj [("id", .str "p1"), ("status", .str "succeeded"),
                                ("output", .str "https://r.dev/a.mp3")]) }
        ⟨[{ id := "t1", status := "generating", replicate_prediction_id := some "p1",
            generation_params := some { prompt := "p", duration := some 30, model := "musicgen" } }],
         [], []⟩ =
      ⟨⟨200, "Track updated successfully"⟩,
       { tracks := updateTrackRecord
            [{ id := "t1", status := "generating", replicate_prediction_id := some "p1",
               generation_params := some { prompt := "p", duration := some 30, model := "musicgen" } }]
            "t1"
            { status := some "completed",
              file_url := some (storagePublicUrl ("t1" ++ "_" ++ toString 7 ++ ".mp3")),
              file_path := some ("t1" ++ "_" ++ toString 7 ++ ".mp3"),
              duration := some (durationParam
                { id := "t1", status := "generating", replicate_prediction_id := some "p1",
                  generation_params := some { prompt := "p", duration := some 30, model := "musicgen" } }),
              updated_at := some 7 },
         storage := [] ++ [⟨"t1" ++ "_" ++ toString 7 ++ ".mp3", [9]⟩],
         track_updates := [] },
       [.download "https://r.dev/a.mp3" 30000,
        .storagePut ("t1" ++ "_" ++ toString 7 ++ ".mp3")]⟩ :=
  (C2_amended {} ⟨fun _ _ => .ok [9], fun _ => none⟩ 7
      { parsed := some (.obj [("id", .str "p1"), ("status", .str "succeeded"),
                              ("output", .str "https://r.dev/a.mp3")]) }
      ⟨[{ id := "t1", status := "generating", replicate_prediction_id := some "p1",
          generation_params := some { prompt := "p", duration := some 30, model := "musicgen" } }],
       [], []⟩
      (.obj [("id", .str "p1"), ("status", .str "succeeded"),
             ("output", .str "https://r.dev/a.mp3")])
      { id := "t1", status := "generating", replicate_prediction_id := some "p1",
        generation_params := some { prompt := "p", duration := some 30, model := "musicgen" } }
      "https://r.dev/a.mp3"
      (Or.inl rfl) rfl rfl rfl rfl (by decide) (Or.inl rfl)).1 [9] rfl rfl rfl

set_option maxRecDepth 10000


/-! ## C5 — signature acceptance condition -/

/-- C5, counterexample: uppercasing a valid lowercase-hex signature — a
one-bit flip of each letter byte — leaves it accepted, because Node's
`Buffer.from(…, "hex")` decodes case-insensitively; yet the uppercased
signature no longer equals the lowercase hex HMAC the claim demands, so
acceptance is not exactly the claimed set and a byte flip of the signature
need not cause rejection. -/
theorem C5_counterexample :
    verifyWebhookSignature "test"
      (jsToUpperCase (hexEncode (hmacSha256 (utf8 "secret") (utf8 "test")))) "secret" = true ∧
    ¬ specSignatureAccepts "test"
      (jsToUpperCase (hexEncode (hmacSha256 (utf8 "secret") (utf8 "test")))) "secret" :=
  ⟨by decide, by unfold specSignatureAccepts; decide⟩

/-- C5, amended: with a non-empty signature and secret, the callback is
accepted exactly when the signature, stripped of one `"sha256="` tag and
hex-decoded case-insensitively with Node's truncating decoder, yields the 32
HMAC-SHA256 bytes of the raw body under the secret; consequently any change
to the signature that alters its decoded bytes, and any change to the body
that alters the HMAC value, turns acceptance into rejection. -/
theorem C5_amended (body signature secret : String)
    (hs : signature ≠ "") (hk : secret ≠ "") :
    (verifyWebhookSignature body signature secret = true ↔
      nodeHexDecode (stripSchemeTag signature).data = hmacSha256 (utf8 secret) (utf8 body)) ∧
    (∀ sig2, sig2 ≠ "" →
       nodeHexDecode (stripSchemeTag sig2).data ≠ nodeHexDecode (stripSchemeTag signature).data →
       verifyWebhookSignature body signature secret = true →
       verifyWebhookSignature body sig2 secret = false) ∧
    (∀ body2, hmacSha256 (utf8 secret) (utf8 body2) ≠ hmacSha256 (utf8 secret) (utf8 body) →
       verifyWebhookSignature body signature secret = true →
       verifyWebhookSignature body2 signature secret = false) := by
  refine ⟨verifyWebhookSignature_eq_true_iff body signature secret hs hk, ?_, ?_⟩
  · intro sig2 hs2 hne hv
    have h1 := (verifyWebhookSignature_eq_true_iff body signature secret hs hk).mp hv
    by_contra hy
    have hy2 : verifyWebhookSignature body sig2 secret = true := by
      cases h : verifyWebhookSignature body sig2 secret
      · exact absurd h hy
      · rfl
    have h2 := (verifyWebhookSignature_eq_true_iff body sig2 secret hs2 hk).mp hy2
    exact hne (h2.trans h1.symm)
  · intro body2 hne hv
    have h1 := (verifyWebhookSignature_eq_true_iff body signature secret hs hk).mp hv
    by_contra hy
    have hy2 : verifyWebhookSignature body2 signature secret = true := by
      cases h : verifyWebhookSignature body2 signature secret
      · exact absurd h hy
      · rfl
    have h2 := (verifyWebhookSignature_eq_true_iff body2 signature secret hs hk).mp hy2
    exact hne (h2.symm.trans h1)

/-- C5, amended, witness: the characterization instantiated at concrete
strings. -/
theorem C5_amended_witness :
    verifyWebhookSignature "b" "ab" "k" = true ↔
      nodeHexDecode (stripSchemeTag "ab").data = hmacSha256 (utf8 "k") (utf8 "b") :=
  (C5_amended "b" "ab" "k" (by decide) (by decide)).1

/-! ## C4 — status/terminal-field coupling across all write paths -/

/-- Patches that set a URL whenever they set status completed preserve
`JobOk`. -/
theorem applyPatch_jobOk (t : Track) (p : TrackPatch) (ht : JobOk t)
    (hp : p.status = some "completed" → p.file_url.isSome) : JobOk (applyPatch t p) := by
  intro hs
  cases hps : p.status with
  | some s =>
      have hsc : s = "completed" := by
        simpa [applyPatch, hps] using hs
      have h2 := hp (hps.trans (by rw [hsc]))
      cases hpf : p.file_url with
      | some u => simp [applyPatch, patchCol, hpf]
      | none => rw [hpf] at h2; simp at h2
  | none =>
      have hts : t.status = "completed" := by
        simpa [applyPatch, hps] using hs
      have h2 := ht hts
      cases hpf : p.file_url with
      | some u => simp [applyPatch, patchCol, hpf]
      | none => simpa [applyPatch, patchCol, hpf] using h2

/-- A single-row update with a `JobOk`-respecting patch preserves the
invariant across the table. -/
theorem updateTrackRecord_jobOk (tracks : List Track) (id : String) (p : TrackPatch)
    (h : ∀ t ∈ tracks, JobOk t) (hp : p.status = some "completed" → p.file_url.isSome) :
    ∀ t ∈ updateTrackRecord tracks id p, JobOk t := by
  intro t ht
  rw [updateTrackRecord, List.mem_map] at ht
  obtain ⟨t0, ht0, rfl⟩ := ht
  by_cases hid : t0.id = id
  · simpa [hid] using applyPatch_jobOk t0 p (h t0 ht0) hp
  · simpa [hid] using h t0 ht0

/-- Every webhook-processing outcome either leaves the table unchanged or
applies one patch that sets the three success columns when completing and an
error message when failing. -/
theorem webhookProcess_tracks_cases (oracles : WebhookOracles) (now : Nat)
    (req : WebhookRequest) (st : WorldState) :
    (webhookProcess oracles now req st).state.tracks = st.tracks ∨
    ∃ id p, (webhookProcess oracles now req st).state.tracks = updateTrackRecord st.tracks id p ∧
      (p.status = some "completed" →
        p.file_url.isSome ∧ p.file_path.isSome ∧ p.duration.isSome) ∧
      (p.status = some "failed" → p.error_message.isSome) := by
  unfold webhookProcess
  split
  · left; rfl
  · try dsimp only
    split
    · left; rfl
    · try dsimp only
      split
      · left; rfl
      · split
        · left; rfl
        · split
          · split
            · right
              exact ⟨_, _, rfl, by intro h; simp at h, fun _ => rfl⟩
            · try dsimp only
              split
              · try dsimp only
                right
                exact ⟨_, _, rfl, by intro h; simp at h, fun _ => rfl⟩
              · try dsimp only
                right
                exact ⟨_, _, rfl, fun _ => ⟨rfl, rfl, rfl⟩,
                  by intro h; simp at h⟩
          · split
            · try dsimp only
              right
              exact ⟨_, _, rfl, by intro h; simp at h, fun _ => rfl⟩
            · split
              · try dsimp only
                right
                exact ⟨_, _, rfl, by intro h; simp at h,
                  by intro h; simp at h⟩
              · left; rfl

/-- The same case analysis through the signature gate. -/
theorem webhookPOST_tracks_cases (env : WebhookEnv) (oracles : WebhookOracles) (now : Nat)
    (req : WebhookRequest) (st : WorldState) :
    (webhookPOST env oracles now req st).state.tracks = st.tracks ∨
    ∃ id p, (webhookPOST env oracles now req st).state.tracks = updateTrackRecord st.tracks id p ∧
      (p.status = some "completed" →
        p.file_url.isSome ∧ p.file_path.isSome ∧ p.duration.isSome) ∧
      (p.status = some "failed" → p.error_message.isSome) := by
  unfold webhookPOST
  split
  · split
    · left; rfl
    · exact webhookProcess_tracks_cases oracles now req st
  · exact webhookProcess_tracks_cases oracles now req st

/-- C4, amended: in every reachable state, a completed job carries an
artifact URL (under all write paths: submission, background continuation,
webhook), and every webhook write that completes a job stores file_url,
file_path and duration while every webhook write that fails a job stores an
error_message.  The original claim's remaining conjuncts are refuted by
`C4_counterexample`: the submission path's background failure stores no
error_message (and a late ping can leave a generating job with stale
terminal fields). -/
theorem C4_amended :
    (∀ st, Reachable st → ∀ t ∈ st.tracks, t.status = "completed" → t.file_url.isSome) ∧
    (∀ (env : WebhookEnv) (oracles : WebhookOracles) (now : Nat) (req : WebhookRequest)
        (st : WorldState),
      (webhookPOST env oracles now req st).state.tracks = st.tracks ∨
      ∃ id p, (webhookPOST env oracles now req st).state.tracks = updateTrackRecord st.tracks id p ∧
        (p.status = some "completed" →
          p.file_url.isSome ∧ p.file_path.isSome ∧ p.duration.isSome) ∧
        (p.status = some "failed" → p.error_message.isSome)) := by
  constructor
  · intro st hr
    induction hr with
    | refl => intro t ht; simp at ht
    | tail hsteps hstep ih =>
      rcases hstep with ⟨id, now, title, description, songs, hvalid⟩ |
        ⟨id, url, path, pid, d⟩ | ⟨id⟩ | ⟨env, oracles, now, req⟩
      · intro t ht
        simp only [List.mem_append, List.mem_singleton] at ht
        rcases ht with ht | ht
        · exact ih t ht
        · subst ht
          intro hs
          simp [initialTrack] at hs
      · exact updateTrackRecord_jobOk _ _ _ ih (fun _ => rfl)
      · exact updateTrackRecord_jobOk _ _ _ ih (by intro h; simp [bgFailurePatch] at h)
      · rcases webhookPOST_tracks_cases env oracles now req _ with h | ⟨id2, p, heq, h1, h2⟩
        · intro t ht; rw [h] at ht; exact ih t ht
        · intro t ht
          rw [heq] at ht
          exact updateTrackRecord_jobOk _ _ _ ih (fun hs => (h1 hs).1) t ht
  · exact webhookPOST_tracks_cases

/-- C4, counterexample: a reachable state — submit, then the background
continuation's failure write (`route.ts:487-496`, `{status: "failed"}` with
no message) — holds a failed job whose error_message is absent. -/
theorem C4_counterexample :
    Reachable ⟨updateTrackRecord [initialTrack "t1" 0 "T" "" [{}]] "t1" bgFailurePatch,
               [], []⟩ ∧
    (updateTrackRecord [initialTrack "t1" 0 "T" "" [{}]] "t1" bgFailurePatch).map
      (fun t => (t.status, t.error_message)) = [("failed", none)] := by
  constructor
  · exact Relation.ReflTransGen.tail
      (Relation.ReflTransGen.tail Relation.ReflTransGen.refl
        (Step.submit ⟨[], [], []⟩ "t1" 0 "T" "" [{}] (by simp)))
      (Step.bgFailure _ "t1")
  · rfl

/-- C4, amended, witness: the invariant applied to a concrete reachable
completed job. -/
theorem C4_amended_witness :
    (applyPatch (initialTrack "t1" 0 "T" "" [{}]) (bgSuccessPatch "u" "pp" "pid" 30)).file_url.isSome := by
  have hr : Reachable ⟨updateTrackRecord [initialTrack "t1" 0 "T" "" [{}]] "t1"
      (bgSuccessPatch "u" "pp" "pid" 30), [], []⟩ :=
    Relation.ReflTransGen.tail
      (Relation.ReflTransGen.tail Relation.ReflTransGen.refl
        (Step.submit ⟨[], [], []⟩ "t1" 0 "T" "" [{}] (by simp)))
      (Step.bgSuccess _ "t1" "u" "pp" "pid" 30)
  have hmem : applyPatch (initialTrack "t1" 0 "T" "" [{}]) (bgSuccessPatch "u" "pp" "pid" 30) ∈
      updateTrackRecord [initialTrack "t1" 0 "T" "" [{}]] "t1" (bgSuccessPatch "u" "pp" "pid" 30) :=
    List.mem_singleton.mpr rfl
  exact C4_amended.1 _ hr _ hmem rfl

/-! ## C9 — title synthesis for the empty submission -/

/-- An in-bounds `getD` returns a member of the list. -/
theorem getD_mem {α : Type} : ∀ (l : List α) (n : Nat) (d : α), n < l.length → l.getD n d ∈ l := by
  intro l
  induction l with
  | nil => intro n d h; simp at h
  | cons a t ih =>
    intro n d h
    cases n with
    | zero => simp
    | succ m =>
      simp only [List.getD_cons_succ]
      exact List.mem_cons_of_mem _ (ih m d (by simpa using h))

/-- Boolean membership test read as non-membership. -/
theorem contains_eq_false_iff (l : List String) (x : String) : l.contains x = false ↔ x ∉ l := by
  constructor
  · intro h hm
    have h2 := List.elem_iff.mpr hm
    rw [show l.contains x = l.elem x from rfl] at h
    rw [h] at h2
    cases h2
  · intro h
    cases hc : l.contains x
    · rfl
    · exact absurd (List.elem_iff.mp hc) h

/-- A category whose lowercased words are distinct and whose used-count is
below its size still has an unused word. -/
theorem exists_fresh (cat used : List String)
    (hnd : (cat.map jsToLowerCase).Nodup)
    (hcnt : used.countP (fun s => (cat.map jsToLowerCase).contains s) < cat.length) :
    ∃ w ∈ cat, jsToLowerCase w ∉ used := by
  by_contra hcon
  push_neg at hcon
  have hsub : cat.map jsToLowerCase ⊆
      used.filter (fun s => (cat.map jsToLowerCase).contains s) := by
    intro x hx
    rw [List.mem_map] at hx
    obtain ⟨w, hw, rfl⟩ := hx
    rw [List.mem_filter]
    refine ⟨hcon w hw, ?_⟩
    rw [List.elem_iff]
    exact List.mem_map_of_mem _ hw
  have hfs : (cat.map jsToLowerCase).toFinset ⊆
      (used.filter (fun s => (cat.map jsToLowerCase).contains s)).toFinset :=
    fun x hx => List.mem_toFinset.mpr (hsub (List.mem_toFinset.mp hx))
  have h1 := List.toFinset_card_of_nodup hnd
  have h2 := Finset.card_le_card hfs
  have h3 := List.toFinset_card_le
      (used.filter (fun s => (cat.map jsToLowerCase).contains s))
  have h4 := (List.countP_eq_length_filter
      (fun s => (cat.map jsToLowerCase).contains s) used).symm
  have h5 : (cat.map jsToLowerCase).length = cat.length := List.length_map _ _
  omega

/-- When an unused word exists, `getRandomWord` draws one: it returns a
category member whose lowercase form was unused and records it. -/
theorem getRandomWord_spec (r : Nat → Nat) (k : Nat) (used cat : List String)
    (hav : ∃ w ∈ cat, jsToLowerCase w ∉ used) :
    ∃ w, getRandomWord r k used cat = (w, used ++ [jsToLowerCase w], k + 1) ∧
      w ∈ cat ∧ jsToLowerCase w ∉ used := by
  obtain ⟨w0, hw0, hf0⟩ := hav
  have hw0a : w0 ∈ cat.filter (fun w => !(used.contains (jsToLowerCase w))) := by
    rw [List.mem_filter]
    exact ⟨hw0, by rw [Bool.not_eq_true', contains_eq_false_iff]; exact hf0⟩
  cases hav2 : cat.filter (fun w => !(used.contains (jsToLowerCase w))) with
  | nil => rw [hav2] at hw0a; simp at hw0a
  | cons a rest =>
    have hlen : r k % (a :: rest).length < (a :: rest).length :=
      Nat.mod_lt _ (by simp)
    have hwm : (a :: rest).getD (r k % (a :: rest).length) "" ∈ (a :: rest) :=
      getD_mem _ _ _ hlen
    have hwm2 : (a :: rest).getD (r k % (a :: rest).length) "" ∈
        cat.filter (fun w => !(used.contains (jsToLowerCase w))) := by
      rw [hav2]; exact hwm
    rw [List.mem_filter] at hwm2
    refine ⟨(a :: rest).getD (r k % (a :: rest).length) "", ?_, hwm2.1, ?_⟩
    · rw [getRandomWord, hav2]
    · rw [← contains_eq_false_iff used, ← Bool.not_eq_true']
      exact hwm2.2

/-- With no reference tracks the title context is all defaults. -/
theorem mkTitleCtx_nil : mkTitleCtx [] = {} := by
  simp [mkTitleCtx]

/-- Default valence 0.5 selects the general mood/descriptor pool. -/
theorem firstWordPool_nil : firstWordPool (mkTitleCtx []) = moods ++ descriptors := by
  rw [mkTitleCtx_nil, firstWordPool]
  have hv : ({} : TitleCtx).avgValence = 1/2 := rfl
  rw [hv, if_neg (by norm_num), if_neg (by norm_num)]

/-- Default energy 0.5 keeps the last-word pool at activities/places. -/
theorem lastCatsOf_nil : lastCatsOf (mkTitleCtx []) = [activities, places] := by
  rw [mkTitleCtx_nil, lastCatsOf]
  have he : ({} : TitleCtx).avgEnergy = 1/2 := rfl
  rw [he, if_neg (by norm_num)]

/-- Default tempo 120 and no genres keep the five base middle pools. -/
theorem middleCatsOf_nil :
    middleCatsOf (mkTitleCtx []) = [times, places, instruments, weather, descriptors] := by
  rw [mkTitleCtx_nil, middleCatsOf]
  have hg : genreWordsOf ({} : TitleCtx) = [] := rfl
  have ht : ({} : TitleCtx).avgTempo = 120 := rfl
  rw [hg, ht]
  simp only [List.length_nil, gt_iff_lt, Nat.lt_irrefl, if_false]
  rw [if_neg (by norm_num), if_neg (by norm_num)]

/-- One successful draw preserves every loop invariant: the used set mirrors
the lowercased parts, stays duplicate-free, grows by one, and stays within
the word banks. -/
theorem pick_invariants (r : Nat → Nat) (k : Nat) (used parts cat : List String)
    (hnd : (cat.map jsToLowerCase).Nodup)
    (hcnt : used.countP (fun s => (cat.map jsToLowerCase).contains s) < cat.length)
    (hu : used = parts.map jsToLowerCase)
    (hnodup : used.Nodup)
    (hm : ∀ w ∈ parts, w ∈ allBankWords)
    (hsub : ∀ w ∈ cat, w ∈ allBankWords) :
    ∃ w, getRandomWord r k used cat = (w, used ++ [jsToLowerCase w], k + 1) ∧
      w ∈ cat ∧
      used ++ [jsToLowerCase w] = (parts ++ [w]).map jsToLowerCase ∧
      (used ++ [jsToLowerCase w]).Nodup ∧
      (parts ++ [w]).length = parts.length + 1 ∧
      (∀ v ∈ parts ++ [w], v ∈ allBankWords) := by
  obtain ⟨w, heq, hwc, hwf⟩ := getRandomWord_spec r k used cat (exists_fresh cat used hnd hcnt)
  refine ⟨w, heq, hwc, ?_, ?_, by simp, ?_⟩
  · rw [hu]; simp
  · rw [List.nodup_append_comm]
    simp only [List.singleton_append, List.nodup_cons]
    exact ⟨hwf, hnodup⟩
  · intro v hv
    rcases List.mem_append.mp hv with hv | hv
    · exact hm v hv
    · rw [List.mem_singleton] at hv
      subst hv
      exact hsub v hwc

/-- The title loop, entered after the first word with the invariants in
hand, produces exactly `n` words, pairwise distinct case-insensitively, all
from the word banks.  The one tight pool is `weather` (six words): its
used-count stays below the number of middle draws because neither the first
word nor any other middle pool contributes a weather word. -/
theorem titleLoop_spec (r : Nat → Nat) (n : Nat) (h2 : 2 ≤ n) (h8 : n ≤ 8) :
    ∀ c i k (used parts : List String),
      c + i = n → 1 ≤ i →
      used = parts.map jsToLowerCase →
      used.Nodup →
      parts.length = i →
      (∀ w ∈ parts, w ∈ allBankWords) →
      used.countP (fun s => ((weather.map jsToLowerCase)).contains s) + 1 ≤ i →
      (titleLoop r (mkTitleCtx []) n c i k used parts).length = n ∧
      ((titleLoop r (mkTitleCtx []) n c i k used parts).map jsToLowerCase).Nodup ∧
      (∀ w ∈ titleLoop r (mkTitleCtx []) n c i k used parts, w ∈ allBankWords) := by
  intro c
  induction c with
  | zero =>
    intro i k used parts hci h1 hu hnd hl hm hwct
    rw [titleLoop]
    exact ⟨by omega, by rw [← hu]; exact hnd, hm⟩
  | succ c ih =>
    intro i k used parts hci h1 hu hnd hl hm hwct
    have hul : used.length = i := by rw [hu, List.length_map, hl]
    have hcle : used.countP (fun s => ((weather.map jsToLowerCase)).contains s) ≤ used.length :=
      List.countP_le_length _
    by_cases hlast : i = n - 1
    · have hc0 : c = 0 := by omega
      subst hc0
      have hv : r k % 2 = 0 ∨ r k % 2 = 1 := by
        have := Nat.mod_lt (r k) (show 0 < 2 by norm_num)
        omega
      rcases hv with hv | hv
      · rw [titleLoop, titleStep, if_neg (by omega), if_pos hlast, lastCatsOf_nil]
        simp only [show ([activities, places] : List (List String)).length = 2 from rfl]
        rw [hv]
        simp only [List.getD_cons_zero, List.getD_cons_succ]
        have hb : used.countP
            (fun s => ((activities.map jsToLowerCase)).contains s) < activities.length := by
          have h01 : used.countP (fun s => ((activities.map jsToLowerCase)).contains s) ≤ used.length :=
            List.countP_le_length _
          have h02 : activities.length = 10 := rfl
          omega
        obtain ⟨w, heq, hwc, hu2, hnd2, hl2, hm2⟩ :=
          pick_invariants r (k+1) used parts activities (by decide) hb hu hnd hm (by decide)
        rw [heq]
        dsimp only
        rw [titleLoop]
        exact ⟨by omega, by rw [← hu2]; exact hnd2, hm2⟩
      · rw [titleLoop, titleStep, if_neg (by omega), if_pos hlast, lastCatsOf_nil]
        simp only [show ([activities, places] : List (List String)).length = 2 from rfl]
        rw [hv]
        simp only [List.getD_cons_zero, List.getD_cons_succ]
        have hb : used.countP
            (fun s => ((places.map jsToLowerCase)).contains s) < places.length := by
          have h01 : used.countP (fun s => ((places.map jsToLowerCase)).contains s) ≤ used.length :=
            List.countP_le_length _
          have h02 : places.length = 10 := rfl
          omega
        obtain ⟨w, heq, hwc, hu2, hnd2, hl2, hm2⟩ :=
          pick_invariants r (k+1) used parts places (by decide) hb hu hnd hm (by decide)
        rw [heq]
        dsimp only
        rw [titleLoop]
        exact ⟨by omega, by rw [← hu2]; exact hnd2, hm2⟩
    · have hi6 : i ≤ 6 := by omega
      have hv : r k % 5 = 0 ∨ r k % 5 = 1 ∨ r k % 5 = 2 ∨ r k % 5 = 3 ∨ r k % 5 = 4 := by
        have := Nat.mod_lt (r k) (show 0 < 5 by norm_num)
        omega
      rw [titleLoop, titleStep, if_neg (by omega), if_neg hlast, middleCatsOf_nil]
      simp only [show ([times, places, instruments, weather, descriptors] :
        List (List String)).length = 5 from rfl]
      rcases hv with hv | hv | hv | hv | hv
      all_goals rw [hv]
      all_goals simp only [List.getD_cons_zero, List.getD_cons_succ]
      · -- times
        have hb : used.countP
            (fun s => ((times.map jsToLowerCase)).contains s) < times.length := by
          have h01 : used.countP (fun s => ((times.map jsToLowerCase)).contains s) ≤ used.length :=
            List.countP_le_length _
          have h02 : times.length = 8 := rfl
          omega
        obtain ⟨w, heq, hwc, hu2, hnd2, hl2, hm2⟩ :=
          pick_invariants r (k+1) used parts times (by decide) hb hu hnd hm (by decide)
        rw [heq]
        dsimp only
        refine ih (i+1) (k+2) _ _ (by omega) (by omega) hu2 hnd2 (by omega) hm2 ?_
        have hx : ((weather.map jsToLowerCase)).contains (jsToLowerCase w) = false :=
          (by decide : ∀ v ∈ times,
            ((weather.map jsToLowerCase)).contains (jsToLowerCase v) = false) w hwc
        have hcs : List.countP (fun s => ((weather.map jsToLowerCase)).contains s)
            [jsToLowerCase w] = 0 := by
          rw [List.countP_cons]
          simp only [List.countP_nil, hx]
          rfl
        rw [List.countP_append, hcs]
        omega
      · -- places
        have hb : used.countP
            (fun s => ((places.map jsToLowerCase)).contains s) < places.length := by
          have h01 : used.countP (fun s => ((places.map jsToLowerCase)).contains s) ≤ used.length :=
            List.countP_le_length _
          have h02 : places.length = 10 := rfl
          omega
        obtain ⟨w, heq, hwc, hu2, hnd2, hl2, hm2⟩ :=
          pick_invariants r (k+1) used parts places (by decide) hb hu hnd hm (by decide)
        rw [heq]
        dsimp only
        refine ih (i+1) (k+2) _ _ (by omega) (by omega) hu2 hnd2 (by omega) hm2 ?_
        have hx : ((weather.map jsToLowerCase)).contains (jsToLowerCase w) = false :=
          (by decide : ∀ v ∈ places,
            ((weather.map jsToLowerCase)).contains (jsToLowerCase v) = false) w hwc
        have hcs : List.countP (fun s => ((weather.map jsToLowerCase)).contains s)
            [jsToLowerCase w] = 0 := by
          rw [List.countP_cons]
          simp only [List.countP_nil, hx]
          rfl
        rw [List.countP_append, hcs]
        omega
      · -- instruments
        have hb : used.countP
            (fun s => ((instruments.map jsToLowerCase)).contains s) < instruments.length := by
          have h01 : used.countP (fun s => ((instruments.map jsToLowerCase)).contains s) ≤ used.length :=
            List.countP_le_length _
          have h02 : instruments.length = 8 := rfl
          omega
        obtain ⟨w, heq, hwc, hu2, hnd2, hl2, hm2⟩ :=
          pick_invariants r (k+1) used parts instruments (by decide) hb hu hnd hm (by decide)
        rw [heq]
        dsimp only
        refine ih (i+1) (k+2) _ _ (by omega) (by omega) hu2 hnd2 (by omega) hm2 ?_
        have hx : ((weather.map jsToLowerCase)).contains (jsToLowerCase w) = false :=
          (by decide : ∀ v ∈ instruments,
            ((weather.map jsToLowerCase)).contains (jsToLowerCase v) = false) w hwc
        have hcs : List.countP (fun s => ((weather.map jsToLowerCase)).contains s)
            [jsToLowerCase w] = 0 := by
          rw [List.countP_cons]
          simp only [List.countP_nil, hx]
          rfl
        rw [List.countP_append, hcs]
        omega
      · -- weather
        have hb : used.countP
            (fun s => ((weather.map jsToLowerCase)).contains s) < weather.length := by
          have h02 : weather.length = 6 := rfl
          omega
        obtain ⟨w, heq, hwc, hu2, hnd2, hl2, hm2⟩ :=
          pick_invariants r (k+1) used parts weather (by decide) hb hu hnd hm (by decide)
        rw [heq]
        dsimp only
        refine ih (i+1) (k+2) _ _ (by omega) (by omega) hu2 hnd2 (by omega) hm2 ?_
        have hcs : List.countP (fun s => ((weather.map jsToLowerCase)).contains s)
            [jsToLowerCase w] ≤ 1 := by
          rw [List.countP_cons]
          simp only [List.countP_nil]
          split <;> omega
        rw [List.countP_append]
        omega
      · -- descriptors
        have hb : used.countP
            (fun s => ((descriptors.map jsToLowerCase)).contains s) < descriptors.length := by
          have h01 : used.countP (fun s => ((descriptors.map jsToLowerCase)).contains s) ≤ used.length :=
            List.countP_le_length _
          have h02 : descriptors.length = 10 := rfl
          omega
        obtain ⟨w, heq, hwc, hu2, hnd2, hl2, hm2⟩ :=
          pick_invariants r (k+1) used parts descriptors (by decide) hb hu hnd hm (by decide)
        rw [heq]
        dsimp only
        refine ih (i+1) (k+2) _ _ (by omega) (by omega) hu2 hnd2 (by omega) hm2 ?_
        have hx : ((weather.map jsToLowerCase)).contains (jsToLowerCase w) = false :=
          (by decide : ∀ v ∈ descriptors,
            ((weather.map jsToLowerCase)).contains (jsToLowerCase v) = false) w hwc
        have hcs : List.countP (fun s => ((weather.map jsToLowerCase)).contains s)
            [jsToLowerCase w] = 0 := by
          rw [List.countP_cons]
          simp only [List.countP_nil, hx]
          rfl
        rw [List.countP_append, hcs]
        omega

/-- C9: for every sequence of random choices, the title synthesized for
zero reference tracks and an empty description consists of between 2 and 8
words, pairwise distinct case-insensitively, each a non-empty space-free
bank word, joined by single spaces. -/
theorem C9_title_synthesis (r : Nat → Nat) :
    2 ≤ (titleParts r "" []).length ∧ (titleParts r "" []).length ≤ 8 ∧
    ((titleParts r "" []).map jsToLowerCase).Nodup ∧
    (titleParts r "" []).all (fun w => !(w == "") && !(w.data.contains ' ')) = true ∧
    generateRandomTitle r "" [] = String.intercalate " " (titleParts r "" []) := by
  have hmod : r 0 % 7 < 7 := Nat.mod_lt _ (by norm_num)
  have h2 : 2 ≤ r 0 % 7 + 2 := by omega
  have h8 : r 0 % 7 + 2 ≤ 8 := by omega
  have heq0 : titleParts r "" [] =
      titleLoop r (mkTitleCtx []) (r 0 % 7 + 2) (r 0 % 7 + 2) 0 1 [] [] := rfl
  have hsucc : r 0 % 7 + 2 = (r 0 % 7 + 1) + 1 := rfl
  have hkey : ∃ w ∈ moods ++ descriptors,
      titleParts r "" [] =
        titleLoop r (mkTitleCtx []) (r 0 % 7 + 2) (r 0 % 7 + 1) 1 2
          ([] ++ [jsToLowerCase w]) ([] ++ [w]) := by
    rw [heq0, hsucc, titleLoop, titleStep, if_pos rfl, firstWordPool_nil]
    obtain ⟨w, heq1, hwc, hu2, hnd2, hl2, hm2⟩ :=
      pick_invariants r 1 [] [] (moods ++ descriptors) (by decide) (by decide)
        rfl (by simp) (by simp) (by decide)
    refine ⟨w, hwc, ?_⟩
    rw [heq1]
  obtain ⟨w, hwc, heq1⟩ := hkey
  have hdisj : ((weather.map jsToLowerCase)).contains (jsToLowerCase w) = false :=
    (by decide : ∀ v ∈ moods ++ descriptors,
      ((weather.map jsToLowerCase)).contains (jsToLowerCase v) = false) w hwc
  have hcw : List.countP (fun s => ((weather.map jsToLowerCase)).contains s)
      ([] ++ [jsToLowerCase w]) = 0 := by
    rw [List.nil_append, List.countP_cons]
    simp only [List.countP_nil, hdisj]
    rfl
  have hloop := titleLoop_spec r (r 0 % 7 + 2) h2 h8 (r 0 % 7 + 1) 1 2
    ([] ++ [jsToLowerCase w]) ([] ++ [w])
    (by omega) (by omega) (by simp) (by simp) (by simp)
    (by
      intro v hv
      rw [List.nil_append, List.mem_singleton] at hv
      subst hv
      exact (by decide : ∀ v ∈ moods ++ descriptors, v ∈ allBankWords) v hwc)
    (by rw [hcw])
  obtain ⟨hlen, hnodup, hmem⟩ := hloop
  rw [heq1]
  refine ⟨by omega, by omega, hnodup, ?_, by rw [← heq1]; rfl⟩
  rw [List.all_eq_true]
  intro v hv
  exact (by decide : ∀ v ∈ allBankWords,
    (!(v == "") && !(v.data.contains ' ')) = true) v (hmem v hv)

end MelodyMaker
